import Mathlib

/-!
# ISA-L compression PMD: verification of the private-xform resolver

Shallow embedding of `isal_comp_set_priv_xform_parameters` from
`drivers/compress/isal/isal_compress_pmd.c`.

The C function receives a pointer to the caller's `rte_comp_xform` (possibly
NULL) and a pointer to the driver's `isal_priv_xform`, which it updates in
place while it validates the request.  The embedding passes the private xform
as an explicit state: the function takes the state before the call and returns
the return code, the state after the call and the diagnostics emitted through
`ISAL_PMD_LOG`.

Both the request and the private xform hold the compress and the decompress
parameter blocks in a C union.  The embedding keeps the two blocks as separate
fields of a record, so that every member access of the source is a field
access of the model; byte-level aliasing between the two blocks is outside the
model.  The control flow does not depend on it: the only read of the private
xform (the Huffman test of the level stage) follows the write of the same
member.  The model is therefore exact for return codes, diagnostics, `type`,
`level_buffer_size` and the block of the request's direction.  About the other
block the theorems say only that two runs making the same writes agree, or
that a field whose storage no path writes is left alone; they never state what
a write through one member leaves in the other.
-/

namespace IsalPmd

/-! ## Declarations of `rte_comp.h` and `isal_compress_pmd_private.h` -/

/-- Modelled from the spec: `enum rte_comp_xform_type` of `rte_comp.h` (the header is
not among the sources).  The two directions the source names, and `other raw`
for any value of the C enum that is neither. -/
inductive rte_comp_xform_type where
  | RTE_COMP_COMPRESS
  | RTE_COMP_DECOMPRESS
  | other (raw : Nat)
  deriving DecidableEq

/-- Modelled from the spec: `enum rte_comp_algorithm` of `rte_comp.h`: Deflate, Null
(bypass), and `other raw` for every other value. -/
inductive rte_comp_algorithm where
  | RTE_COMP_ALGO_NULL
  | RTE_COMP_ALGO_DEFLATE
  | other (raw : Nat)
  deriving DecidableEq

/-- Modelled from the spec: `enum rte_comp_checksum_type` of `rte_comp.h`: None, and
`other raw` for every other value. -/
inductive rte_comp_checksum_type where
  | RTE_COMP_CHECKSUM_NONE
  | other (raw : Nat)
  deriving DecidableEq

/-- Modelled from the spec: `enum rte_comp_huffman` of `rte_comp.h`: Default, Fixed,
Dynamic, and `other raw` for an unknown value. -/
inductive rte_comp_huffman where
  | RTE_COMP_HUFFMAN_DEFAULT
  | RTE_COMP_HUFFMAN_FIXED
  | RTE_COMP_HUFFMAN_DYNAMIC
  | other (raw : Nat)
  deriving DecidableEq

open rte_comp_xform_type rte_comp_algorithm rte_comp_checksum_type rte_comp_huffman

/-- Modelled from the spec: the level sentinel "use backend default" of `rte_comp.h`,
conventionally -1. -/
def RTE_COMP_LEVEL_PMD_DEFAULT : Int := -1

/-- Modelled from the spec: the reserved "no compression" level of `rte_comp.h`, 0. -/
def RTE_COMP_LEVEL_NONE : Int := 0

/-- Modelled from the spec: the minimum caller-facing level of `rte_comp.h`, 1. -/
def RTE_COMP_LEVEL_MIN : Int := 1

/-- Modelled from the spec: the maximum caller-facing level of `rte_comp.h`, 9. -/
def RTE_COMP_LEVEL_MAX : Int := 9

/-- Modelled from the spec: `EINVAL` of `errno.h` (InvalidArgument), with its Linux
value. -/
def EINVAL : Int := 22

/-- Modelled from the spec: `ENOTSUP` of `errno.h` (UnsupportedFeature), with its Linux
value. -/
def ENOTSUP : Int := 95

/-- `#define RTE_COMP_ISAL_WINDOW_SIZE 15` -/
def RTE_COMP_ISAL_WINDOW_SIZE : Nat := 15

/-- `#define RTE_COMP_ISAL_LEVEL_ZERO 0`: ISA-L level 0, used for fixed Huffman. -/
def RTE_COMP_ISAL_LEVEL_ZERO : Int := 0

/-- `#define RTE_COMP_ISAL_LEVEL_ONE 1` -/
def RTE_COMP_ISAL_LEVEL_ONE : Int := 1

/-- `#define RTE_COMP_ISAL_LEVEL_TWO 2` -/
def RTE_COMP_ISAL_LEVEL_TWO : Int := 2

/-- `#define RTE_COMP_ISAL_LEVEL_THREE 3`: optimised for AVX512 and AVX2 only. -/
def RTE_COMP_ISAL_LEVEL_THREE : Int := 3

/-- Modelled from the spec: the per-level working-buffer sizes `ISAL_DEF_LVLn_DEFAULT`
of the ISA-L header `isa-l.h`, one constant per internal level.  Their values
are not fixed by the sources, so they are a parameter of the model; each is a
value of the `uint32_t` field it is stored into. -/
structure isal_def_lvl where
  ISAL_DEF_LVL0_DEFAULT : Nat
  ISAL_DEF_LVL1_DEFAULT : Nat
  ISAL_DEF_LVL2_DEFAULT : Nat
  ISAL_DEF_LVL3_DEFAULT : Nat
  deriving DecidableEq

/-- Modelled from the spec: the CPU flags the source queries (`enum rte_cpu_flag_t`). -/
inductive rte_cpu_flag_t where
  | RTE_CPUFLAG_AVX512F
  | RTE_CPUFLAG_AVX2
  deriving DecidableEq

open rte_cpu_flag_t

/-- Capability snapshot: which of the two wide-vector extensions the running
CPU provides.  A fixed property of the process, read-only. -/
structure cpu_caps where
  avx512f : Bool
  avx2 : Bool
  deriving DecidableEq

/-- Modelled from the spec: `rte_cpu_get_flag_enabled` of the EAL, a side-effect-free
boolean query of the capability snapshot. -/
def rte_cpu_get_flag_enabled (cpu : cpu_caps) : rte_cpu_flag_t → Bool
  | RTE_CPUFLAG_AVX512F => cpu.avx512f
  | RTE_CPUFLAG_AVX2 => cpu.avx2

/-- Modelled from the spec: `struct rte_comp_deflate_params` of `rte_comp.h`. -/
structure rte_comp_deflate_params where
  huffman : rte_comp_huffman
  deriving DecidableEq

/-- Modelled from the spec: `struct rte_comp_compress_xform` of `rte_comp.h`, with the
fields the source reads or writes.  `level` is a C `int`, `window_size` a
`uint8_t`. -/
structure rte_comp_compress_xform where
  algo : rte_comp_algorithm
  deflate : rte_comp_deflate_params
  level : Int
  window_size : Nat
  chksum : rte_comp_checksum_type
  deriving DecidableEq

/-- Modelled from the spec: `struct rte_comp_decompress_xform` of `rte_comp.h`. -/
structure rte_comp_decompress_xform where
  algo : rte_comp_algorithm
  chksum : rte_comp_checksum_type
  window_size : Nat
  deriving DecidableEq

/-- Modelled from the spec: `struct rte_comp_xform` of `rte_comp.h`, the caller's
request: a direction and the parameter blocks of both directions. -/
structure rte_comp_xform where
  type : rte_comp_xform_type
  compress : rte_comp_compress_xform
  decompress : rte_comp_decompress_xform
  deriving DecidableEq

/-- Modelled from the spec: `struct isal_priv_xform` of `isal_compress_pmd_private.h`,
the resolved configuration: direction, parameter blocks and the working-buffer
size (`uint32_t`) of the resolved internal level.  In C the two parameter
blocks are members of one union and share storage (`compress.algo` with
`decompress.algo`, `compress.deflate.huffman` with `decompress.chksum`,
`compress.level` with `decompress.window_size`); here they are separate fields,
each read and written as the source names it. -/
structure isal_priv_xform where
  type : rte_comp_xform_type
  compress : rte_comp_compress_xform
  decompress : rte_comp_decompress_xform
  level_buffer_size : Nat
  deriving DecidableEq

/-- Log levels used with `ISAL_PMD_LOG`. -/
inductive isal_log_level where
  | ERR
  | DEBUG
  deriving DecidableEq

open isal_log_level

/-- Modelled from the spec: one diagnostic emitted through the `ISAL_PMD_LOG` macro of
`isal_compress_pmd_private.h`: its level and its format string. -/
abbrev isal_log_entry := isal_log_level × String

/-- Everything a call of `isal_comp_set_priv_xform_parameters` leaves behind:
the return code, the private xform after the call and the diagnostics logged,
oldest first. -/
structure isal_call_result where
  ret : Int
  priv_xform : isal_priv_xform
  log : List isal_log_entry
  deriving DecidableEq

/-! ## The resolver -/

/-- The level mapping of the `else` branch at the end of the compress path
(source lines 103-151): the `switch` over the requested level with its
capability-gated `default` case.  Returns the private xform with
`compress.level` and `level_buffer_size` written, and the diagnostics. -/
def map_api_level (B : isal_def_lvl) (cpu : cpu_caps) (priv_xform : isal_priv_xform)
    (level : Int) : isal_priv_xform × List isal_log_entry :=
  if level = RTE_COMP_LEVEL_PMD_DEFAULT then
    -- Default is 1 if not using fixed huffman
    ({ priv_xform with
        compress := { priv_xform.compress with level := RTE_COMP_ISAL_LEVEL_ONE },
        level_buffer_size := B.ISAL_DEF_LVL1_DEFAULT }, [])
  else if level = RTE_COMP_LEVEL_MIN then
    ({ priv_xform with
        compress := { priv_xform.compress with level := RTE_COMP_ISAL_LEVEL_ONE },
        level_buffer_size := B.ISAL_DEF_LVL1_DEFAULT }, [])
  else if level = RTE_COMP_ISAL_LEVEL_TWO then
    ({ priv_xform with
        compress := { priv_xform.compress with level := RTE_COMP_ISAL_LEVEL_TWO },
        level_buffer_size := B.ISAL_DEF_LVL2_DEFAULT }, [])
  -- Level 3 or higher requested
  else if rte_cpu_get_flag_enabled cpu RTE_CPUFLAG_AVX512F then
    ({ priv_xform with
        compress := { priv_xform.compress with level := RTE_COMP_ISAL_LEVEL_THREE },
        level_buffer_size := B.ISAL_DEF_LVL3_DEFAULT }, [])
  else if rte_cpu_get_flag_enabled cpu RTE_CPUFLAG_AVX2 then
    ({ priv_xform with
        compress := { priv_xform.compress with level := RTE_COMP_ISAL_LEVEL_THREE },
        level_buffer_size := B.ISAL_DEF_LVL3_DEFAULT }, [])
  else
    ({ priv_xform with
        compress := { priv_xform.compress with level := RTE_COMP_ISAL_LEVEL_TWO },
        level_buffer_size := B.ISAL_DEF_LVL2_DEFAULT },
      [(DEBUG, "Requested ISA-L level 3 or above; Level 3 optimized for AVX512 & AVX2 only. level changed to 2.\n")])

/-- The level checks and the level resolution of the compress path (source
lines 79-152), entered once the Huffman type has been written. -/
def set_level (B : isal_def_lvl) (cpu : cpu_caps) (priv_xform : isal_priv_xform)
    (xform : rte_comp_xform) : isal_call_result :=
  -- Checking compliance with compressdev API, -1 <= level => 9
  if xform.compress.level < RTE_COMP_LEVEL_PMD_DEFAULT ∨
      xform.compress.level > RTE_COMP_LEVEL_MAX then
    ⟨-EINVAL, priv_xform, [(ERR, "Compression level out of range\n")]⟩
  -- Check for Compressdev API level 0, No compression not supported in ISA-L
  else if xform.compress.level = RTE_COMP_LEVEL_NONE then
    ⟨-ENOTSUP, priv_xform, [(ERR, "No Compression not supported\n")]⟩
  -- If using fixed huffman code, level must be 0
  else if priv_xform.compress.deflate.huffman = RTE_COMP_HUFFMAN_FIXED then
    ⟨0, { priv_xform with
            compress := { priv_xform.compress with level := RTE_COMP_ISAL_LEVEL_ZERO },
            level_buffer_size := B.ISAL_DEF_LVL0_DEFAULT },
      [(DEBUG, "ISA-L level 0 used due to a fixed huffman code\n")]⟩
  else
    -- Mapping API levels to ISA-L levels 1,2 & 3
    let r := map_api_level B cpu priv_xform xform.compress.level
    ⟨0, r.1, r.2⟩

/-- Writes `priv_xform->compress.deflate.huffman`. -/
def set_huffman (priv_xform : isal_priv_xform) (h : rte_comp_huffman) : isal_priv_xform :=
  { priv_xform with compress := { priv_xform.compress with deflate := { huffman := h } } }

/-- The compress path (source lines 31-152). -/
def set_compress (B : isal_def_lvl) (cpu : cpu_caps) (priv_xform : isal_priv_xform)
    (xform : rte_comp_xform) : isal_call_result :=
  -- Set private xform type - COMPRESS/DECOMPRESS
  let priv_xform := { priv_xform with type := RTE_COMP_COMPRESS }
  -- Set private xform algorithm
  if xform.compress.algo ≠ RTE_COMP_ALGO_DEFLATE then
    if xform.compress.algo = RTE_COMP_ALGO_NULL then
      ⟨-ENOTSUP, priv_xform, [(ERR, "By-pass not supported\n")]⟩
    else
      ⟨-ENOTSUP, priv_xform, [(ERR, "Algorithm not supported\n")]⟩
  else
  let priv_xform :=
    { priv_xform with compress := { priv_xform.compress with algo := RTE_COMP_ALGO_DEFLATE } }
  -- Set private xform checksum - raw deflate by default
  if xform.compress.chksum ≠ RTE_COMP_CHECKSUM_NONE then
    ⟨-ENOTSUP, priv_xform, [(ERR, "Checksum not supported\n")]⟩
  else
  -- Set private xform window size, 32K supported
  if xform.compress.window_size = RTE_COMP_ISAL_WINDOW_SIZE then
    let priv_xform :=
      { priv_xform with
          compress := { priv_xform.compress with window_size := RTE_COMP_ISAL_WINDOW_SIZE } }
    -- Set private xform huffman type
    match xform.compress.deflate.huffman with
    | RTE_COMP_HUFFMAN_DEFAULT =>
      set_level B cpu (set_huffman priv_xform RTE_COMP_HUFFMAN_DEFAULT) xform
    | RTE_COMP_HUFFMAN_FIXED =>
      set_level B cpu (set_huffman priv_xform RTE_COMP_HUFFMAN_FIXED) xform
    | RTE_COMP_HUFFMAN_DYNAMIC =>
      set_level B cpu (set_huffman priv_xform RTE_COMP_HUFFMAN_DYNAMIC) xform
    | _ =>
      ⟨-ENOTSUP, priv_xform, [(ERR, "Huffman code not supported\n")]⟩
  else
    ⟨-ENOTSUP, priv_xform, [(ERR, "Window size not supported\n")]⟩

/-- The decompress path (source lines 157-186). -/
def set_decompress (priv_xform : isal_priv_xform) (xform : rte_comp_xform) :
    isal_call_result :=
  -- Set private xform type - COMPRESS/DECOMPRESS
  let priv_xform := { priv_xform with type := RTE_COMP_DECOMPRESS }
  -- Set private xform algorithm
  if xform.decompress.algo ≠ RTE_COMP_ALGO_DEFLATE then
    if xform.decompress.algo = RTE_COMP_ALGO_NULL then
      ⟨-ENOTSUP, priv_xform, [(ERR, "By pass not supported\n")]⟩
    else
      ⟨-ENOTSUP, priv_xform, [(ERR, "Algorithm not supported\n")]⟩
  else
  let priv_xform :=
    { priv_xform with
        decompress := { priv_xform.decompress with algo := RTE_COMP_ALGO_DEFLATE } }
  -- Set private xform checksum - raw deflate by default
  -- (the source reads the compress block here: `xform->compress.chksum`)
  if xform.compress.chksum ≠ RTE_COMP_CHECKSUM_NONE then
    ⟨-ENOTSUP, priv_xform, [(ERR, "Checksum not supported\n")]⟩
  else
  -- Set private xform window size, 32K supported
  if xform.decompress.window_size = RTE_COMP_ISAL_WINDOW_SIZE then
    ⟨0, { priv_xform with
            decompress :=
              { priv_xform.decompress with window_size := RTE_COMP_ISAL_WINDOW_SIZE } },
      []⟩
  else
    ⟨-ENOTSUP, priv_xform, [(ERR, "Window size not supported\n")]⟩

/-- Verify and set private xform parameters (source lines 22-188).  `xform` is
`none` for a NULL pointer. -/
def isal_comp_set_priv_xform_parameters (B : isal_def_lvl) (cpu : cpu_caps)
    (priv_xform : isal_priv_xform) (xform : Option rte_comp_xform) : isal_call_result :=
  match xform with
  | none => ⟨-EINVAL, priv_xform, []⟩
  | some xform =>
    -- Set compression private xform variables
    if xform.type = RTE_COMP_COMPRESS then
      set_compress B cpu priv_xform xform
    -- Set decompression private xform variables
    else if xform.type = RTE_COMP_DECOMPRESS then
      set_decompress priv_xform xform
    else
      ⟨0, priv_xform, []⟩

/-! ## Concrete requests and states used as instances -/

/-- Buffer-size constants with four distinct values. -/
def sample_sizes : isal_def_lvl := ⟨64, 1024, 2048, 4096⟩

/-- A private xform of the model in which every field holds a value that no
resolution writes, so that an instance shows which fields a call has written.
Its two blocks are chosen independently of each other. -/
def stale_priv_xform : isal_priv_xform :=
  ⟨RTE_COMP_DECOMPRESS, ⟨.other 7, ⟨.other 7⟩, 77, 7, .other 7⟩, ⟨.other 7, .other 7, 7⟩, 777⟩

/-- The private xform of a finished decompress session: what a successful
decompress resolution leaves in zero-filled union storage, read through both
members.  The decompress block holds DEFLATE, no checksum and window 15; the
compress block reads the same storage as DEFLATE, default Huffman, level 15
(the window-size byte), window size 0 and no checksum.  `level_buffer_size`,
which lies outside the union, still holds 2048 from an earlier session. -/
def decompress_session_priv_xform : isal_priv_xform :=
  ⟨RTE_COMP_DECOMPRESS,
    ⟨RTE_COMP_ALGO_DEFLATE, ⟨RTE_COMP_HUFFMAN_DEFAULT⟩, 15, 0, RTE_COMP_CHECKSUM_NONE⟩,
    ⟨RTE_COMP_ALGO_DEFLATE, RTE_COMP_CHECKSUM_NONE, 15⟩, 2048⟩

/-- A compress request with the given parameters; its decompress block holds
values the compress path never reads. -/
def compress_request (a : rte_comp_algorithm) (c : rte_comp_checksum_type) (w : Nat)
    (h : rte_comp_huffman) (l : Int) : rte_comp_xform :=
  ⟨RTE_COMP_COMPRESS, ⟨a, ⟨h⟩, l, w, c⟩, ⟨.other 0, .other 0, 0⟩⟩

/-- A decompress request with the given parameters and the given checksum in
its compress block; the rest of the compress block holds values the decompress
path never reads. -/
def decompress_request (a : rte_comp_algorithm) (c : rte_comp_checksum_type) (w : Nat)
    (compress_chksum : rte_comp_checksum_type) : rte_comp_xform :=
  ⟨RTE_COMP_DECOMPRESS, ⟨.other 0, ⟨.other 0⟩, 0, 0, compress_chksum⟩, ⟨a, c, w⟩⟩

/-! ## Return code of each path -/

/-- Return code of the level checks. -/
theorem set_level_ret (B : isal_def_lvl) (cpu : cpu_caps) (q : isal_priv_xform)
    (x : rte_comp_xform) :
    (set_level B cpu q x).ret =
      if x.compress.level < -1 ∨ x.compress.level > 9 then -EINVAL
      else if x.compress.level = 0 then -ENOTSUP else 0 := by
  unfold set_level
  simp only [RTE_COMP_LEVEL_PMD_DEFAULT, RTE_COMP_LEVEL_MAX, RTE_COMP_LEVEL_NONE]
  split_ifs <;> rfl

/-- Return code of the compress path, as the ordered sequence of its checks. -/
theorem set_compress_ret (B : isal_def_lvl) (cpu : cpu_caps) (p : isal_priv_xform)
    (x : rte_comp_xform) :
    (set_compress B cpu p x).ret =
      if x.compress.algo ≠ RTE_COMP_ALGO_DEFLATE then -ENOTSUP
      else if x.compress.chksum ≠ RTE_COMP_CHECKSUM_NONE then -ENOTSUP
      else if x.compress.window_size ≠ 15 then -ENOTSUP
      else if x.compress.deflate.huffman ≠ RTE_COMP_HUFFMAN_DEFAULT ∧
          x.compress.deflate.huffman ≠ RTE_COMP_HUFFMAN_FIXED ∧
          x.compress.deflate.huffman ≠ RTE_COMP_HUFFMAN_DYNAMIC then -ENOTSUP
      else if x.compress.level < -1 ∨ x.compress.level > 9 then -EINVAL
      else if x.compress.level = 0 then -ENOTSUP else 0 := by
  unfold set_compress
  simp only [RTE_COMP_ISAL_WINDOW_SIZE]
  by_cases ha : x.compress.algo = RTE_COMP_ALGO_DEFLATE
  · by_cases hc : x.compress.chksum = RTE_COMP_CHECKSUM_NONE
    · by_cases hw : x.compress.window_size = 15
      · simp only [ha, hc, hw, ne_eq, not_true_eq_false, if_false, if_true]
        cases hh : x.compress.deflate.huffman <;> simp [set_level_ret]
      · simp [ha, hc, hw]
    · simp [ha, hc]
  · simp only [ne_eq, ha, not_false_eq_true, if_true]
    split_ifs <;> rfl

/-- Return code of the decompress path, as the ordered sequence of its checks. -/
theorem set_decompress_ret (p : isal_priv_xform) (x : rte_comp_xform) :
    (set_decompress p x).ret =
      if x.decompress.algo ≠ RTE_COMP_ALGO_DEFLATE then -ENOTSUP
      else if x.compress.chksum ≠ RTE_COMP_CHECKSUM_NONE then -ENOTSUP
      else if x.decompress.window_size ≠ 15 then -ENOTSUP
      else 0 := by
  unfold set_decompress
  simp only [RTE_COMP_ISAL_WINDOW_SIZE]
  split_ifs <;> first | rfl | contradiction

/-- A compress request is handled by the compress path. -/
theorem compress_dispatch (B : isal_def_lvl) (cpu : cpu_caps) (p : isal_priv_xform)
    (x : rte_comp_xform) (hx : x.type = RTE_COMP_COMPRESS) :
    isal_comp_set_priv_xform_parameters B cpu p (some x) = set_compress B cpu p x := by
  simp [isal_comp_set_priv_xform_parameters, hx]

/-- A decompress request is handled by the decompress path. -/
theorem decompress_dispatch (B : isal_def_lvl) (cpu : cpu_caps) (p : isal_priv_xform)
    (x : rte_comp_xform) (hx : x.type = RTE_COMP_DECOMPRESS) :
    isal_comp_set_priv_xform_parameters B cpu p (some x) = set_decompress p x := by
  simp [isal_comp_set_priv_xform_parameters, hx]

/-- Once the four field checks pass with a non-fixed Huffman type, the compress
path is the level stage run on the private xform with type, algorithm, window
size and Huffman type written. -/
theorem set_compress_valid_fields (B : isal_def_lvl) (cpu : cpu_caps) (p : isal_priv_xform)
    (x : rte_comp_xform)
    (ha : x.compress.algo = RTE_COMP_ALGO_DEFLATE)
    (hc : x.compress.chksum = RTE_COMP_CHECKSUM_NONE)
    (hw : x.compress.window_size = 15)
    (hh : x.compress.deflate.huffman = RTE_COMP_HUFFMAN_DEFAULT ∨
      x.compress.deflate.huffman = RTE_COMP_HUFFMAN_FIXED ∨
      x.compress.deflate.huffman = RTE_COMP_HUFFMAN_DYNAMIC) :
    set_compress B cpu p x =
      set_level B cpu
        { type := RTE_COMP_COMPRESS,
          compress :=
            { algo := RTE_COMP_ALGO_DEFLATE, deflate := { huffman := x.compress.deflate.huffman },
              level := p.compress.level, window_size := 15, chksum := p.compress.chksum },
          decompress := p.decompress,
          level_buffer_size := p.level_buffer_size } x := by
  unfold set_compress
  simp only [RTE_COMP_ISAL_WINDOW_SIZE, ha, hc, hw, ne_eq, not_true_eq_false, if_false, if_true]
  rcases hh with h | h | h <;> simp only [h] <;> rfl

/-- A failing level stage writes nothing. -/
theorem set_level_fail_state (B : isal_def_lvl) (cpu : cpu_caps) (q : isal_priv_xform)
    (x : rte_comp_xform) (h : (set_level B cpu q x).ret ≠ 0) :
    (set_level B cpu q x).priv_xform = q := by
  revert h
  unfold set_level
  split_ifs <;> simp

/-- A failing compress path writes neither the level, nor the buffer size, nor
the checksum of the compress block, nor the window size of the decompress
block (which shares its storage with the level). -/
theorem set_compress_fail_keeps (B : isal_def_lvl) (cpu : cpu_caps) (p : isal_priv_xform)
    (x : rte_comp_xform) (h : (set_compress B cpu p x).ret ≠ 0) :
    (set_compress B cpu p x).priv_xform.compress.level = p.compress.level ∧
    (set_compress B cpu p x).priv_xform.level_buffer_size = p.level_buffer_size ∧
    (set_compress B cpu p x).priv_xform.compress.chksum = p.compress.chksum ∧
    (set_compress B cpu p x).priv_xform.decompress.window_size = p.decompress.window_size := by
  by_cases ha : x.compress.algo = RTE_COMP_ALGO_DEFLATE
  · by_cases hc : x.compress.chksum = RTE_COMP_CHECKSUM_NONE
    · by_cases hw : x.compress.window_size = 15
      · by_cases hh : x.compress.deflate.huffman = RTE_COMP_HUFFMAN_DEFAULT ∨
            x.compress.deflate.huffman = RTE_COMP_HUFFMAN_FIXED ∨
            x.compress.deflate.huffman = RTE_COMP_HUFFMAN_DYNAMIC
        · rw [set_compress_valid_fields B cpu p x ha hc hw hh] at h ⊢
          rw [set_level_fail_state B cpu _ x h]
          simp
        · unfold set_compress
          simp only [RTE_COMP_ISAL_WINDOW_SIZE, ha, hc, hw, ne_eq, not_true_eq_false, if_false,
            if_true]
          cases hv : x.compress.deflate.huffman <;> simp [hv] at hh ⊢
      · unfold set_compress
        simp [RTE_COMP_ISAL_WINDOW_SIZE, ha, hc, hw]
    · unfold set_compress
      simp [ha, hc]
  · unfold set_compress
    simp only [ne_eq, ha, not_false_eq_true, if_true]
    split_ifs <;> simp

/-- A compress path that returns 0 has passed all six checks. -/
theorem set_compress_ok_fields (B : isal_def_lvl) (cpu : cpu_caps) (p : isal_priv_xform)
    (x : rte_comp_xform) (h : (set_compress B cpu p x).ret = 0) :
    x.compress.algo = RTE_COMP_ALGO_DEFLATE ∧
    x.compress.chksum = RTE_COMP_CHECKSUM_NONE ∧
    x.compress.window_size = 15 ∧
    (x.compress.deflate.huffman = RTE_COMP_HUFFMAN_DEFAULT ∨
      x.compress.deflate.huffman = RTE_COMP_HUFFMAN_FIXED ∨
      x.compress.deflate.huffman = RTE_COMP_HUFFMAN_DYNAMIC) ∧
    ¬ (x.compress.level < -1 ∨ x.compress.level > 9) ∧ x.compress.level ≠ 0 := by
  rw [set_compress_ret] at h
  split_ifs at h with h1 h2 h3 h4 h5 h6 <;> simp [EINVAL, ENOTSUP] at h
  refine ⟨not_not.mp h1, not_not.mp h2, not_not.mp h3, ?_, h5, h6⟩
  by_contra hn
  push_neg at hn
  exact h4 hn

/-- What the level mapping writes: it touches only `compress.level` and
`level_buffer_size`, and the pair written is one of (1, LVL1), (2, LVL2),
(3, LVL3). -/
theorem map_api_level_state (B : isal_def_lvl) (cpu : cpu_caps) (q : isal_priv_xform)
    (l : Int) :
    (map_api_level B cpu q l).1 =
      { q with
          compress := { q.compress with level := (map_api_level B cpu q l).1.compress.level },
          level_buffer_size := (map_api_level B cpu q l).1.level_buffer_size } ∧
    (((map_api_level B cpu q l).1.compress.level = 1 ∧
        (map_api_level B cpu q l).1.level_buffer_size = B.ISAL_DEF_LVL1_DEFAULT) ∨
      ((map_api_level B cpu q l).1.compress.level = 2 ∧
        (map_api_level B cpu q l).1.level_buffer_size = B.ISAL_DEF_LVL2_DEFAULT) ∨
      ((map_api_level B cpu q l).1.compress.level = 3 ∧
        (map_api_level B cpu q l).1.level_buffer_size = B.ISAL_DEF_LVL3_DEFAULT)) := by
  unfold map_api_level
  split_ifs <;>
    simp [RTE_COMP_ISAL_LEVEL_ONE, RTE_COMP_ISAL_LEVEL_TWO, RTE_COMP_ISAL_LEVEL_THREE]

/-- The level stage on a level that passes both level checks: level 0 with the
level-0 buffer size under fixed Huffman, the level mapping otherwise. -/
theorem set_level_ok_state (B : isal_def_lvl) (cpu : cpu_caps) (q : isal_priv_xform)
    (x : rte_comp_xform)
    (h1 : ¬ (x.compress.level < -1 ∨ x.compress.level > 9)) (h2 : x.compress.level ≠ 0) :
    (set_level B cpu q x).priv_xform =
      if q.compress.deflate.huffman = RTE_COMP_HUFFMAN_FIXED then
        { q with
            compress := { q.compress with level := 0 },
            level_buffer_size := B.ISAL_DEF_LVL0_DEFAULT }
      else (map_api_level B cpu q x.compress.level).1 := by
  unfold set_level
  simp only [RTE_COMP_LEVEL_PMD_DEFAULT, RTE_COMP_LEVEL_MAX, RTE_COMP_LEVEL_NONE,
    RTE_COMP_ISAL_LEVEL_ZERO, h1, h2, if_false]
  split_ifs <;> rfl

/-- The compress path under two capability snapshots: same return code, same
type and same compress block apart from `compress.level`. -/
theorem set_compress_cpu_agree (B : isal_def_lvl) (cpu1 cpu2 : cpu_caps)
    (p : isal_priv_xform) (x : rte_comp_xform) :
    (set_compress B cpu1 p x).ret = (set_compress B cpu2 p x).ret ∧
    (set_compress B cpu1 p x).priv_xform.type = (set_compress B cpu2 p x).priv_xform.type ∧
    (set_compress B cpu1 p x).priv_xform.compress.algo =
      (set_compress B cpu2 p x).priv_xform.compress.algo ∧
    (set_compress B cpu1 p x).priv_xform.compress.deflate =
      (set_compress B cpu2 p x).priv_xform.compress.deflate ∧
    (set_compress B cpu1 p x).priv_xform.compress.window_size =
      (set_compress B cpu2 p x).priv_xform.compress.window_size ∧
    (set_compress B cpu1 p x).priv_xform.compress.chksum =
      (set_compress B cpu2 p x).priv_xform.compress.chksum := by
  have hret : (set_compress B cpu1 p x).ret = (set_compress B cpu2 p x).ret := by
    rw [set_compress_ret, set_compress_ret]
  refine ⟨hret, ?_⟩
  by_cases hok : (set_compress B cpu1 p x).ret = 0
  · obtain ⟨ha, hc, hw, hh, h5, h6⟩ := set_compress_ok_fields B cpu1 p x hok
    rw [set_compress_valid_fields B cpu1 p x ha hc hw hh,
      set_compress_valid_fields B cpu2 p x ha hc hw hh,
      set_level_ok_state B cpu1 _ x h5 h6, set_level_ok_state B cpu2 _ x h5 h6]
    split_ifs
    · exact ⟨rfl, rfl, rfl, rfl, rfl⟩
    · rw [(map_api_level_state B cpu1 _ x.compress.level).1,
        (map_api_level_state B cpu2 _ x.compress.level).1]
      exact ⟨rfl, rfl, rfl, rfl, rfl⟩
  · have hok2 : (set_compress B cpu2 p x).ret ≠ 0 := by rw [← hret]; exact hok
    by_cases ha : x.compress.algo = RTE_COMP_ALGO_DEFLATE
    · by_cases hc : x.compress.chksum = RTE_COMP_CHECKSUM_NONE
      · by_cases hw : x.compress.window_size = 15
        · by_cases hh : x.compress.deflate.huffman = RTE_COMP_HUFFMAN_DEFAULT ∨
              x.compress.deflate.huffman = RTE_COMP_HUFFMAN_FIXED ∨
              x.compress.deflate.huffman = RTE_COMP_HUFFMAN_DYNAMIC
          · rw [set_compress_valid_fields B cpu1 p x ha hc hw hh] at hok ⊢
            rw [set_compress_valid_fields B cpu2 p x ha hc hw hh] at hok2 ⊢
            rw [set_level_fail_state B cpu1 _ x hok, set_level_fail_state B cpu2 _ x hok2]
            exact ⟨rfl, rfl, rfl, rfl, rfl⟩
          · unfold set_compress
            simp only [RTE_COMP_ISAL_WINDOW_SIZE, ha, hc, hw, ne_eq, not_true_eq_false,
              if_false, if_true]
            cases hv : x.compress.deflate.huffman <;> simp [hv] at hh ⊢
        · unfold set_compress
          simp [RTE_COMP_ISAL_WINDOW_SIZE, ha, hc, hw]
      · unfold set_compress
        simp [ha, hc]
    · unfold set_compress
      simp [ha]

/-- The internal level chosen by the level mapping, as a function of the
requested level and the capability snapshot. -/
theorem map_api_level_level (B : isal_def_lvl) (cpu : cpu_caps) (q : isal_priv_xform)
    (l : Int) :
    (map_api_level B cpu q l).1.compress.level =
      if l = -1 then 1 else if l = 1 then 1 else if l = 2 then 2
      else if cpu.avx512f = true then 3 else if cpu.avx2 = true then 3 else 2 := by
  unfold map_api_level
  simp only [RTE_COMP_LEVEL_PMD_DEFAULT, RTE_COMP_LEVEL_MIN, RTE_COMP_ISAL_LEVEL_ONE,
    RTE_COMP_ISAL_LEVEL_TWO, RTE_COMP_ISAL_LEVEL_THREE, rte_cpu_get_flag_enabled]
  split_ifs <;> rfl

/-- Adding capability flags never lowers the level written by the compress
path. -/
theorem set_compress_level_mono_cpu (B : isal_def_lvl) (cpuA cpuB : cpu_caps)
    (p : isal_priv_xform) (x : rte_comp_xform)
    (h512 : cpuA.avx512f = true → cpuB.avx512f = true)
    (h2 : cpuA.avx2 = true → cpuB.avx2 = true) :
    (set_compress B cpuA p x).priv_xform.compress.level ≤
      (set_compress B cpuB p x).priv_xform.compress.level := by
  by_cases hok : (set_compress B cpuA p x).ret = 0
  · obtain ⟨ha, hc, hw, hh, h5, h6⟩ := set_compress_ok_fields B cpuA p x hok
    rw [set_compress_valid_fields B cpuA p x ha hc hw hh,
      set_compress_valid_fields B cpuB p x ha hc hw hh,
      set_level_ok_state B cpuA _ x h5 h6, set_level_ok_state B cpuB _ x h5 h6]
    split_ifs
    · exact le_refl _
    · rw [map_api_level_level, map_api_level_level]
      cases hA : cpuA.avx512f <;> cases hB : cpuB.avx512f <;>
        cases hA2 : cpuA.avx2 <;> cases hB2 : cpuB.avx2 <;>
        simp [hA, hB, hA2, hB2] at h512 h2 ⊢ <;> split_ifs <;> decide
  · have hok2 : (set_compress B cpuB p x).ret ≠ 0 := by
      rw [← (set_compress_cpu_agree B cpuA cpuB p x).1]; exact hok
    rw [(set_compress_fail_keeps B cpuA p x hok).1, (set_compress_fail_keeps B cpuB p x hok2).1]

/-! ## Resolution of compress requests -/

/-- C1: for every non-null compress request, every capability snapshot and
every initial private xform, the call returns 0 if and only if algo = DEFLATE,
chksum = NONE, window_size = 15, huffman is DEFAULT, FIXED or DYNAMIC, and
level lies in [-1, 9] and is not 0; whenever it does not return 0 it returns a
negative error code. -/
theorem compress_succeeds_iff (B : isal_def_lvl) (cpu : cpu_caps) (p : isal_priv_xform)
    (x : rte_comp_xform) (hx : x.type = RTE_COMP_COMPRESS) :
    ((isal_comp_set_priv_xform_parameters B cpu p (some x)).ret = 0 ↔
      (x.compress.algo = RTE_COMP_ALGO_DEFLATE ∧
        x.compress.chksum = RTE_COMP_CHECKSUM_NONE ∧
        x.compress.window_size = 15 ∧
        (x.compress.deflate.huffman = RTE_COMP_HUFFMAN_DEFAULT ∨
          x.compress.deflate.huffman = RTE_COMP_HUFFMAN_FIXED ∨
          x.compress.deflate.huffman = RTE_COMP_HUFFMAN_DYNAMIC) ∧
        -1 ≤ x.compress.level ∧ x.compress.level ≤ 9 ∧ x.compress.level ≠ 0)) ∧
    ((isal_comp_set_priv_xform_parameters B cpu p (some x)).ret ≠ 0 →
      (isal_comp_set_priv_xform_parameters B cpu p (some x)).ret < 0) := by
  rw [compress_dispatch B cpu p x hx, set_compress_ret]
  constructor
  · constructor
    · intro h
      split_ifs at h with h1 h2 h3 h4 h5 h6 <;> simp [EINVAL, ENOTSUP] at h
      refine ⟨not_not.mp h1, not_not.mp h2, not_not.mp h3, ?_, ?_, ?_, h6⟩
      · by_contra hn
        push_neg at hn
        exact h4 hn
      · omega
      · omega
    · rintro ⟨h1, h2, h3, h4, h5, h6, h7⟩
      have h4n : ¬ (x.compress.deflate.huffman ≠ RTE_COMP_HUFFMAN_DEFAULT ∧
          x.compress.deflate.huffman ≠ RTE_COMP_HUFFMAN_FIXED ∧
          x.compress.deflate.huffman ≠ RTE_COMP_HUFFMAN_DYNAMIC) := by
        rintro ⟨a, b, c⟩
        rcases h4 with h | h | h
        · exact a h
        · exact b h
        · exact c h
      have h5n : ¬ (x.compress.level < -1 ∨ x.compress.level > 9) := by omega
      simp [h1, h2, h3, h4n, h5n, h7]
  · intro h
    split_ifs at h ⊢ <;> simp [EINVAL, ENOTSUP] at h ⊢

/-- C1, at scenario A of the spec: DEFLATE, no checksum, window 15, default
Huffman, sentinel level. -/
theorem compress_succeeds_iff_witness :
    (compress_request RTE_COMP_ALGO_DEFLATE RTE_COMP_CHECKSUM_NONE 15
        RTE_COMP_HUFFMAN_DEFAULT (-1)).type = RTE_COMP_COMPRESS ∧
    (isal_comp_set_priv_xform_parameters sample_sizes ⟨false, false⟩ stale_priv_xform
        (some (compress_request RTE_COMP_ALGO_DEFLATE RTE_COMP_CHECKSUM_NONE 15
          RTE_COMP_HUFFMAN_DEFAULT (-1)))).ret = 0 :=
  ⟨rfl, ((compress_succeeds_iff sample_sizes ⟨false, false⟩ stale_priv_xform
      (compress_request RTE_COMP_ALGO_DEFLATE RTE_COMP_CHECKSUM_NONE 15
        RTE_COMP_HUFFMAN_DEFAULT (-1)) rfl).1).2 (by decide)⟩

/-- C2: for every compress request with algo = DEFLATE, chksum = NONE,
window_size = 15, huffman DEFAULT or DYNAMIC and level in 3..9, the call
returns 0; if the capability snapshot reports AVX512F or AVX2 the resolved level
is 3 with level_buffer_size = ISAL_DEF_LVL3_DEFAULT, and if it reports neither
the resolved level is 2 with level_buffer_size = ISAL_DEF_LVL2_DEFAULT. -/
theorem level_three_or_higher_resolution (B : isal_def_lvl) (cpu : cpu_caps)
    (p : isal_priv_xform) (x : rte_comp_xform)
    (hx : x.type = RTE_COMP_COMPRESS)
    (ha : x.compress.algo = RTE_COMP_ALGO_DEFLATE)
    (hc : x.compress.chksum = RTE_COMP_CHECKSUM_NONE)
    (hw : x.compress.window_size = 15)
    (hh : x.compress.deflate.huffman = RTE_COMP_HUFFMAN_DEFAULT ∨
      x.compress.deflate.huffman = RTE_COMP_HUFFMAN_DYNAMIC)
    (hl : 3 ≤ x.compress.level ∧ x.compress.level ≤ 9) :
    (isal_comp_set_priv_xform_parameters B cpu p (some x)).ret = 0 ∧
    (cpu.avx512f = true ∨ cpu.avx2 = true →
      (isal_comp_set_priv_xform_parameters B cpu p (some x)).priv_xform.compress.level = 3 ∧
      (isal_comp_set_priv_xform_parameters B cpu p (some x)).priv_xform.level_buffer_size =
        B.ISAL_DEF_LVL3_DEFAULT) ∧
    (cpu.avx512f = false ∧ cpu.avx2 = false →
      (isal_comp_set_priv_xform_parameters B cpu p (some x)).priv_xform.compress.level = 2 ∧
      (isal_comp_set_priv_xform_parameters B cpu p (some x)).priv_xform.level_buffer_size =
        B.ISAL_DEF_LVL2_DEFAULT) := by
  have hh3 : x.compress.deflate.huffman = RTE_COMP_HUFFMAN_DEFAULT ∨
      x.compress.deflate.huffman = RTE_COMP_HUFFMAN_FIXED ∨
      x.compress.deflate.huffman = RTE_COMP_HUFFMAN_DYNAMIC := by
    rcases hh with h | h
    · exact Or.inl h
    · exact Or.inr (Or.inr h)
  have hnf : x.compress.deflate.huffman ≠ RTE_COMP_HUFFMAN_FIXED := by
    rcases hh with h | h <;> simp [h]
  have h1 : ¬ (x.compress.level < -1 ∨ x.compress.level > 9) := by omega
  have h2 : x.compress.level ≠ 0 := by omega
  have h3 : x.compress.level ≠ -1 := by omega
  have h4 : x.compress.level ≠ 1 := by omega
  have h5 : x.compress.level ≠ 2 := by omega
  rw [compress_dispatch B cpu p x hx, set_compress_valid_fields B cpu p x ha hc hw hh3]
  simp only [set_level, map_api_level, rte_cpu_get_flag_enabled, RTE_COMP_LEVEL_PMD_DEFAULT,
    RTE_COMP_LEVEL_MAX, RTE_COMP_LEVEL_NONE, RTE_COMP_LEVEL_MIN, RTE_COMP_ISAL_LEVEL_TWO,
    RTE_COMP_ISAL_LEVEL_THREE, h1, h2, h3, h4, h5, hnf, if_false]
  refine ⟨trivial, ?_, ?_⟩
  · rintro (h | h)
    · simp [h]
    · cases h512 : cpu.avx512f <;> simp [h]
  · rintro ⟨h512, h2⟩
    simp [h512, h2]

/-- C2, at scenario B of the spec: level 9 on a CPU with AVX512F resolves to
internal level 3. -/
theorem level_three_or_higher_resolution_witness :
    (isal_comp_set_priv_xform_parameters sample_sizes ⟨true, false⟩ stale_priv_xform
        (some (compress_request RTE_COMP_ALGO_DEFLATE RTE_COMP_CHECKSUM_NONE 15
          RTE_COMP_HUFFMAN_DEFAULT 9))).ret = 0 ∧
    (isal_comp_set_priv_xform_parameters sample_sizes ⟨true, false⟩ stale_priv_xform
        (some (compress_request RTE_COMP_ALGO_DEFLATE RTE_COMP_CHECKSUM_NONE 15
          RTE_COMP_HUFFMAN_DEFAULT 9))).priv_xform.compress.level = 3 ∧
    (isal_comp_set_priv_xform_parameters sample_sizes ⟨true, false⟩ stale_priv_xform
        (some (compress_request RTE_COMP_ALGO_DEFLATE RTE_COMP_CHECKSUM_NONE 15
          RTE_COMP_HUFFMAN_DEFAULT 9))).priv_xform.level_buffer_size =
      sample_sizes.ISAL_DEF_LVL3_DEFAULT :=
  have h := level_three_or_higher_resolution sample_sizes ⟨true, false⟩ stale_priv_xform
    (compress_request RTE_COMP_ALGO_DEFLATE RTE_COMP_CHECKSUM_NONE 15
      RTE_COMP_HUFFMAN_DEFAULT 9) rfl rfl rfl rfl (Or.inl rfl) (by decide)
  ⟨h.1, h.2.1 (Or.inl rfl)⟩

/-- C3: for every compress request with algo = DEFLATE, chksum = NONE,
window_size = 15 and huffman DEFAULT or DYNAMIC, and every capability snapshot:
level -1 (the sentinel) and level 1 (the minimum) resolve with return 0 to
internal level 1 and level_buffer_size = ISAL_DEF_LVL1_DEFAULT, and level 2
resolves with return 0 to internal level 2 and level_buffer_size =
ISAL_DEF_LVL2_DEFAULT. -/
theorem low_level_resolution (B : isal_def_lvl) (cpu : cpu_caps)
    (p : isal_priv_xform) (x : rte_comp_xform)
    (hx : x.type = RTE_COMP_COMPRESS)
    (ha : x.compress.algo = RTE_COMP_ALGO_DEFLATE)
    (hc : x.compress.chksum = RTE_COMP_CHECKSUM_NONE)
    (hw : x.compress.window_size = 15)
    (hh : x.compress.deflate.huffman = RTE_COMP_HUFFMAN_DEFAULT ∨
      x.compress.deflate.huffman = RTE_COMP_HUFFMAN_DYNAMIC) :
    (x.compress.level = -1 ∨ x.compress.level = 1 →
      (isal_comp_set_priv_xform_parameters B cpu p (some x)).ret = 0 ∧
      (isal_comp_set_priv_xform_parameters B cpu p (some x)).priv_xform.compress.level = 1 ∧
      (isal_comp_set_priv_xform_parameters B cpu p (some x)).priv_xform.level_buffer_size =
        B.ISAL_DEF_LVL1_DEFAULT) ∧
    (x.compress.level = 2 →
      (isal_comp_set_priv_xform_parameters B cpu p (some x)).ret = 0 ∧
      (isal_comp_set_priv_xform_parameters B cpu p (some x)).priv_xform.compress.level = 2 ∧
      (isal_comp_set_priv_xform_parameters B cpu p (some x)).priv_xform.level_buffer_size =
        B.ISAL_DEF_LVL2_DEFAULT) := by
  have hh3 : x.compress.deflate.huffman = RTE_COMP_HUFFMAN_DEFAULT ∨
      x.compress.deflate.huffman = RTE_COMP_HUFFMAN_FIXED ∨
      x.compress.deflate.huffman = RTE_COMP_HUFFMAN_DYNAMIC := by
    rcases hh with h | h
    · exact Or.inl h
    · exact Or.inr (Or.inr h)
  have hnf : x.compress.deflate.huffman ≠ RTE_COMP_HUFFMAN_FIXED := by
    rcases hh with h | h <;> simp [h]
  rw [compress_dispatch B cpu p x hx, set_compress_valid_fields B cpu p x ha hc hw hh3]
  simp only [set_level, map_api_level, RTE_COMP_LEVEL_PMD_DEFAULT,
    RTE_COMP_LEVEL_MAX, RTE_COMP_LEVEL_NONE, RTE_COMP_LEVEL_MIN, RTE_COMP_ISAL_LEVEL_ONE,
    RTE_COMP_ISAL_LEVEL_TWO, hnf, if_false]
  refine ⟨?_, ?_⟩
  · rintro (h | h) <;> simp [h]
  · intro h
    simp [h]

/-- C3, at scenario A of the spec: the sentinel level with default Huffman
resolves to internal level 1. -/
theorem low_level_resolution_witness :
    (isal_comp_set_priv_xform_parameters sample_sizes ⟨false, false⟩ stale_priv_xform
        (some (compress_request RTE_COMP_ALGO_DEFLATE RTE_COMP_CHECKSUM_NONE 15
          RTE_COMP_HUFFMAN_DEFAULT (-1)))).ret = 0 ∧
    (isal_comp_set_priv_xform_parameters sample_sizes ⟨false, false⟩ stale_priv_xform
        (some (compress_request RTE_COMP_ALGO_DEFLATE RTE_COMP_CHECKSUM_NONE 15
          RTE_COMP_HUFFMAN_DEFAULT (-1)))).priv_xform.compress.level = 1 ∧
    (isal_comp_set_priv_xform_parameters sample_sizes ⟨false, false⟩ stale_priv_xform
        (some (compress_request RTE_COMP_ALGO_DEFLATE RTE_COMP_CHECKSUM_NONE 15
          RTE_COMP_HUFFMAN_DEFAULT (-1)))).priv_xform.level_buffer_size =
      sample_sizes.ISAL_DEF_LVL1_DEFAULT :=
  (low_level_resolution sample_sizes ⟨false, false⟩ stale_priv_xform
    (compress_request RTE_COMP_ALGO_DEFLATE RTE_COMP_CHECKSUM_NONE 15
      RTE_COMP_HUFFMAN_DEFAULT (-1)) rfl rfl rfl rfl (Or.inl rfl)).1 (Or.inl rfl)

/-- C4: for every compress request with algo = DEFLATE, chksum = NONE,
window_size = 15, huffman = FIXED and a level in [-1, 9] other than 0, and
every capability snapshot, the call returns 0 with resolved level 0 and
level_buffer_size = ISAL_DEF_LVL0_DEFAULT; and any second such request (in
particular the same request with another such level), resolved from the same
initial private xform under any capability snapshot, gives the same return
code, private xform and diagnostics. -/
theorem fixed_huffman_forces_level_zero (B : isal_def_lvl) (cpu cpu2 : cpu_caps)
    (p : isal_priv_xform) (x y : rte_comp_xform)
    (hx : x.type = RTE_COMP_COMPRESS)
    (ha : x.compress.algo = RTE_COMP_ALGO_DEFLATE)
    (hc : x.compress.chksum = RTE_COMP_CHECKSUM_NONE)
    (hw : x.compress.window_size = 15)
    (hh : x.compress.deflate.huffman = RTE_COMP_HUFFMAN_FIXED)
    (hl : -1 ≤ x.compress.level ∧ x.compress.level ≤ 9 ∧ x.compress.level ≠ 0)
    (hy : y.type = RTE_COMP_COMPRESS)
    (hya : y.compress.algo = RTE_COMP_ALGO_DEFLATE)
    (hyc : y.compress.chksum = RTE_COMP_CHECKSUM_NONE)
    (hyw : y.compress.window_size = 15)
    (hyh : y.compress.deflate.huffman = RTE_COMP_HUFFMAN_FIXED)
    (hyl : -1 ≤ y.compress.level ∧ y.compress.level ≤ 9 ∧ y.compress.level ≠ 0) :
    (isal_comp_set_priv_xform_parameters B cpu p (some x)).ret = 0 ∧
    (isal_comp_set_priv_xform_parameters B cpu p (some x)).priv_xform.compress.level = 0 ∧
    (isal_comp_set_priv_xform_parameters B cpu p (some x)).priv_xform.level_buffer_size =
      B.ISAL_DEF_LVL0_DEFAULT ∧
    isal_comp_set_priv_xform_parameters B cpu2 p (some y) =
      isal_comp_set_priv_xform_parameters B cpu p (some x) := by
  have h1 : ¬ (x.compress.level < -1 ∨ x.compress.level > 9) := by omega
  have h1b : ¬ (y.compress.level < -1 ∨ y.compress.level > 9) := by omega
  rw [compress_dispatch B cpu p x hx, compress_dispatch B cpu2 p y hy,
    set_compress_valid_fields B cpu p x ha hc hw (Or.inr (Or.inl hh)),
    set_compress_valid_fields B cpu2 p y hya hyc hyw (Or.inr (Or.inl hyh))]
  simp [set_level, RTE_COMP_LEVEL_PMD_DEFAULT, RTE_COMP_LEVEL_MAX, RTE_COMP_LEVEL_NONE,
    RTE_COMP_ISAL_LEVEL_ZERO, h1, h1b, hl.2.2, hyl.2.2, hh, hyh]

/-- C4, at levels 5 and 9 under fixed Huffman, on CPUs with and without the
vector extensions. -/
theorem fixed_huffman_forces_level_zero_witness :
    (isal_comp_set_priv_xform_parameters sample_sizes ⟨false, false⟩ stale_priv_xform
        (some (compress_request RTE_COMP_ALGO_DEFLATE RTE_COMP_CHECKSUM_NONE 15
          RTE_COMP_HUFFMAN_FIXED 5))).priv_xform.compress.level = 0 ∧
    isal_comp_set_priv_xform_parameters sample_sizes ⟨true, true⟩ stale_priv_xform
        (some (compress_request RTE_COMP_ALGO_DEFLATE RTE_COMP_CHECKSUM_NONE 15
          RTE_COMP_HUFFMAN_FIXED 9)) =
      isal_comp_set_priv_xform_parameters sample_sizes ⟨false, false⟩ stale_priv_xform
        (some (compress_request RTE_COMP_ALGO_DEFLATE RTE_COMP_CHECKSUM_NONE 15
          RTE_COMP_HUFFMAN_FIXED 5)) :=
  have h := fixed_huffman_forces_level_zero sample_sizes ⟨false, false⟩ ⟨true, true⟩
    stale_priv_xform
    (compress_request RTE_COMP_ALGO_DEFLATE RTE_COMP_CHECKSUM_NONE 15
      RTE_COMP_HUFFMAN_FIXED 5)
    (compress_request RTE_COMP_ALGO_DEFLATE RTE_COMP_CHECKSUM_NONE 15
      RTE_COMP_HUFFMAN_FIXED 9)
    rfl rfl rfl rfl rfl (by decide) rfl rfl rfl rfl rfl (by decide)
  ⟨h.2.1, h.2.2.2⟩

/-! ## Failed resolutions -/

/-- C5, refuted as stated: a compress request with DEFLATE, no checksum,
window 15, dynamic Huffman and the out-of-range level 10 fails with -EINVAL,
yet the private xform, which held a resolved decompress configuration before
the call, is not the one it was: its type has become COMPRESS, and the window
size and Huffman type of the compress block have been written (15 and DYNAMIC,
where the storage read 0 and DEFAULT before). -/
theorem failed_call_leaves_partial_writes :
    (isal_comp_set_priv_xform_parameters sample_sizes ⟨false, false⟩
        decompress_session_priv_xform
        (some (compress_request RTE_COMP_ALGO_DEFLATE RTE_COMP_CHECKSUM_NONE 15
          RTE_COMP_HUFFMAN_DYNAMIC 10))).ret = -EINVAL ∧
    (isal_comp_set_priv_xform_parameters sample_sizes ⟨false, false⟩
        decompress_session_priv_xform
        (some (compress_request RTE_COMP_ALGO_DEFLATE RTE_COMP_CHECKSUM_NONE 15
          RTE_COMP_HUFFMAN_DYNAMIC 10))).ret ≠ 0 ∧
    (isal_comp_set_priv_xform_parameters sample_sizes ⟨false, false⟩
        decompress_session_priv_xform
        (some (compress_request RTE_COMP_ALGO_DEFLATE RTE_COMP_CHECKSUM_NONE 15
          RTE_COMP_HUFFMAN_DYNAMIC 10))).priv_xform ≠ decompress_session_priv_xform ∧
    decompress_session_priv_xform.type = RTE_COMP_DECOMPRESS ∧
    (isal_comp_set_priv_xform_parameters sample_sizes ⟨false, false⟩
        decompress_session_priv_xform
        (some (compress_request RTE_COMP_ALGO_DEFLATE RTE_COMP_CHECKSUM_NONE 15
          RTE_COMP_HUFFMAN_DYNAMIC 10))).priv_xform.type = RTE_COMP_COMPRESS ∧
    decompress_session_priv_xform.compress.window_size = 0 ∧
    (isal_comp_set_priv_xform_parameters sample_sizes ⟨false, false⟩
        decompress_session_priv_xform
        (some (compress_request RTE_COMP_ALGO_DEFLATE RTE_COMP_CHECKSUM_NONE 15
          RTE_COMP_HUFFMAN_DYNAMIC 10))).priv_xform.compress.window_size = 15 ∧
    decompress_session_priv_xform.compress.deflate.huffman = RTE_COMP_HUFFMAN_DEFAULT ∧
    (isal_comp_set_priv_xform_parameters sample_sizes ⟨false, false⟩
        decompress_session_priv_xform
        (some (compress_request RTE_COMP_ALGO_DEFLATE RTE_COMP_CHECKSUM_NONE 15
          RTE_COMP_HUFFMAN_DYNAMIC 10))).priv_xform.compress.deflate.huffman = RTE_COMP_HUFFMAN_DYNAMIC := by
  decide

/-- C5, amended: when the call returns a non-zero code the resolved level and
buffer size have not been written: `compress.level` and `level_buffer_size` of
the private xform keep the values they had before the call, as do
`compress.chksum` and `decompress.window_size`, which no failing path writes.
With a NULL request the private xform is unchanged altogether.  Nothing is
said of the fields written before the failing check (type, algo, compress
window size, Huffman type) nor of the storage they share in the union. -/
theorem failed_call_keeps_level_and_buffer (B : isal_def_lvl) (cpu : cpu_caps)
    (p : isal_priv_xform) (xform : Option rte_comp_xform)
    (hfail : (isal_comp_set_priv_xform_parameters B cpu p xform).ret ≠ 0) :
    (isal_comp_set_priv_xform_parameters B cpu p xform).priv_xform.compress.level =
      p.compress.level ∧
    (isal_comp_set_priv_xform_parameters B cpu p xform).priv_xform.level_buffer_size =
      p.level_buffer_size ∧
    (isal_comp_set_priv_xform_parameters B cpu p xform).priv_xform.compress.chksum =
      p.compress.chksum ∧
    (isal_comp_set_priv_xform_parameters B cpu p xform).priv_xform.decompress.window_size =
      p.decompress.window_size ∧
    (xform = none → (isal_comp_set_priv_xform_parameters B cpu p xform).priv_xform = p) := by
  cases xform with
  | none => simp [isal_comp_set_priv_xform_parameters]
  | some x =>
    simp only [reduceCtorEq, false_implies, and_true]
    by_cases hx : x.type = RTE_COMP_COMPRESS
    · rw [compress_dispatch B cpu p x hx] at hfail ⊢
      exact set_compress_fail_keeps B cpu p x hfail
    · by_cases hd : x.type = RTE_COMP_DECOMPRESS
      · rw [decompress_dispatch B cpu p x hd] at hfail ⊢
        revert hfail
        unfold set_decompress
        split_ifs <;> simp
      · simp [isal_comp_set_priv_xform_parameters, hx, hd] at hfail

/-- C5 amended, at the request of the counterexample: the level and the buffer
size that the private xform held before the call survive the failed call. -/
theorem failed_call_keeps_level_and_buffer_witness :
    (isal_comp_set_priv_xform_parameters sample_sizes ⟨false, false⟩
        decompress_session_priv_xform
        (some (compress_request RTE_COMP_ALGO_DEFLATE RTE_COMP_CHECKSUM_NONE 15
          RTE_COMP_HUFFMAN_DYNAMIC 10))).ret ≠ 0 ∧
    (isal_comp_set_priv_xform_parameters sample_sizes ⟨false, false⟩
        decompress_session_priv_xform
        (some (compress_request RTE_COMP_ALGO_DEFLATE RTE_COMP_CHECKSUM_NONE 15
          RTE_COMP_HUFFMAN_DYNAMIC 10))).priv_xform.compress.level = 15 ∧
    (isal_comp_set_priv_xform_parameters sample_sizes ⟨false, false⟩
        decompress_session_priv_xform
        (some (compress_request RTE_COMP_ALGO_DEFLATE RTE_COMP_CHECKSUM_NONE 15
          RTE_COMP_HUFFMAN_DYNAMIC 10))).priv_xform.level_buffer_size = 2048 :=
  have h := failed_call_keeps_level_and_buffer sample_sizes ⟨false, false⟩
    decompress_session_priv_xform
    (some (compress_request RTE_COMP_ALGO_DEFLATE RTE_COMP_CHECKSUM_NONE 15
      RTE_COMP_HUFFMAN_DYNAMIC 10)) (by decide)
  ⟨by decide, h.1, h.2.1⟩

/-- C6, refuted as stated: a compress request with level 10 whose algorithm is
NULL fails with -ENOTSUP, not -EINVAL: the algorithm check comes first. -/
theorem level_out_of_range_not_always_einval :
    (compress_request RTE_COMP_ALGO_NULL RTE_COMP_CHECKSUM_NONE 15
        RTE_COMP_HUFFMAN_DEFAULT 10).type = RTE_COMP_COMPRESS ∧
    (compress_request RTE_COMP_ALGO_NULL RTE_COMP_CHECKSUM_NONE 15
        RTE_COMP_HUFFMAN_DEFAULT 10).compress.level > RTE_COMP_LEVEL_MAX ∧
    (isal_comp_set_priv_xform_parameters sample_sizes ⟨false, false⟩ stale_priv_xform
        (some (compress_request RTE_COMP_ALGO_NULL RTE_COMP_CHECKSUM_NONE 15
          RTE_COMP_HUFFMAN_DEFAULT 10))).ret = -ENOTSUP ∧
    (isal_comp_set_priv_xform_parameters sample_sizes ⟨false, false⟩ stale_priv_xform
        (some (compress_request RTE_COMP_ALGO_NULL RTE_COMP_CHECKSUM_NONE 15
          RTE_COMP_HUFFMAN_DEFAULT 10))).ret ≠ -EINVAL := by
  decide

/-- C6, amended: for every compress request with level outside [-1, 9], the
call returns -EINVAL when the four earlier checks pass (algo = DEFLATE,
chksum = NONE, window_size = 15, huffman DEFAULT, FIXED or DYNAMIC), and
-ENOTSUP when one of them fails. -/
theorem level_out_of_range_rejected (B : isal_def_lvl) (cpu : cpu_caps)
    (p : isal_priv_xform) (x : rte_comp_xform)
    (hx : x.type = RTE_COMP_COMPRESS)
    (hl : x.compress.level < RTE_COMP_LEVEL_PMD_DEFAULT ∨
      x.compress.level > RTE_COMP_LEVEL_MAX) :
    ((x.compress.algo = RTE_COMP_ALGO_DEFLATE ∧
        x.compress.chksum = RTE_COMP_CHECKSUM_NONE ∧
        x.compress.window_size = 15 ∧
        (x.compress.deflate.huffman = RTE_COMP_HUFFMAN_DEFAULT ∨
          x.compress.deflate.huffman = RTE_COMP_HUFFMAN_FIXED ∨
          x.compress.deflate.huffman = RTE_COMP_HUFFMAN_DYNAMIC)) →
      (isal_comp_set_priv_xform_parameters B cpu p (some x)).ret = -EINVAL) ∧
    (¬ (x.compress.algo = RTE_COMP_ALGO_DEFLATE ∧
        x.compress.chksum = RTE_COMP_CHECKSUM_NONE ∧
        x.compress.window_size = 15 ∧
        (x.compress.deflate.huffman = RTE_COMP_HUFFMAN_DEFAULT ∨
          x.compress.deflate.huffman = RTE_COMP_HUFFMAN_FIXED ∨
          x.compress.deflate.huffman = RTE_COMP_HUFFMAN_DYNAMIC)) →
      (isal_comp_set_priv_xform_parameters B cpu p (some x)).ret = -ENOTSUP) := by
  simp only [RTE_COMP_LEVEL_PMD_DEFAULT, RTE_COMP_LEVEL_MAX] at hl
  rw [compress_dispatch B cpu p x hx, set_compress_ret]
  constructor
  · rintro ⟨h1, h2, h3, h4⟩
    have h4n : ¬ (x.compress.deflate.huffman ≠ RTE_COMP_HUFFMAN_DEFAULT ∧
        x.compress.deflate.huffman ≠ RTE_COMP_HUFFMAN_FIXED ∧
        x.compress.deflate.huffman ≠ RTE_COMP_HUFFMAN_DYNAMIC) := by
      rintro ⟨a, b, c⟩
      rcases h4 with h | h | h
      · exact a h
      · exact b h
      · exact c h
    simp [h1, h2, h3, h4n, hl]
  · intro hn
    split_ifs with h1 h2 h3 h4 <;> first | rfl | skip
    all_goals
      exfalso
      apply hn
      refine ⟨not_not.mp h1, not_not.mp h2, not_not.mp h3, ?_⟩
      by_contra hc
      push_neg at hc
      exact h4 hc

/-- C6 amended, at level 10 with dynamic Huffman and all earlier checks
passing. -/
theorem level_out_of_range_rejected_witness :
    (compress_request RTE_COMP_ALGO_DEFLATE RTE_COMP_CHECKSUM_NONE 15
        RTE_COMP_HUFFMAN_DYNAMIC 10).compress.level > RTE_COMP_LEVEL_MAX ∧
    (isal_comp_set_priv_xform_parameters sample_sizes ⟨true, true⟩ stale_priv_xform
        (some (compress_request RTE_COMP_ALGO_DEFLATE RTE_COMP_CHECKSUM_NONE 15
          RTE_COMP_HUFFMAN_DYNAMIC 10))).ret = -EINVAL :=
  ⟨by decide,
    (level_out_of_range_rejected sample_sizes ⟨true, true⟩ stale_priv_xform
      (compress_request RTE_COMP_ALGO_DEFLATE RTE_COMP_CHECKSUM_NONE 15
        RTE_COMP_HUFFMAN_DYNAMIC 10) rfl (Or.inr (by decide))).1
      ⟨rfl, rfl, rfl, Or.inr (Or.inr rfl)⟩⟩

/-- C7: for every compress request with level = 0 (RTE_COMP_LEVEL_NONE),
whatever its other fields, the capability snapshot and the initial private
xform, the call returns -ENOTSUP, also under huffman = FIXED; in particular it
never returns 0. -/
theorem level_none_rejected (B : isal_def_lvl) (cpu : cpu_caps)
    (p : isal_priv_xform) (x : rte_comp_xform)
    (hx : x.type = RTE_COMP_COMPRESS)
    (hl : x.compress.level = RTE_COMP_LEVEL_NONE) :
    (isal_comp_set_priv_xform_parameters B cpu p (some x)).ret = -ENOTSUP ∧
    (isal_comp_set_priv_xform_parameters B cpu p (some x)).ret ≠ 0 := by
  simp only [RTE_COMP_LEVEL_NONE] at hl
  rw [compress_dispatch B cpu p x hx]
  have h5 : ¬ (x.compress.level < -1 ∨ x.compress.level > 9) := by omega
  have key : (set_compress B cpu p x).ret = -ENOTSUP := by
    rw [set_compress_ret]
    split_ifs <;> rfl
  rw [key]
  exact ⟨rfl, by decide⟩

/-- C7, at level 0 under fixed Huffman with every other field valid. -/
theorem level_none_rejected_witness :
    (compress_request RTE_COMP_ALGO_DEFLATE RTE_COMP_CHECKSUM_NONE 15
        RTE_COMP_HUFFMAN_FIXED 0).compress.level = RTE_COMP_LEVEL_NONE ∧
    (isal_comp_set_priv_xform_parameters sample_sizes ⟨true, true⟩ stale_priv_xform
        (some (compress_request RTE_COMP_ALGO_DEFLATE RTE_COMP_CHECKSUM_NONE 15
          RTE_COMP_HUFFMAN_FIXED 0))).ret = -ENOTSUP :=
  ⟨rfl,
    (level_none_rejected sample_sizes ⟨true, true⟩ stale_priv_xform
      (compress_request RTE_COMP_ALGO_DEFLATE RTE_COMP_CHECKSUM_NONE 15
        RTE_COMP_HUFFMAN_FIXED 0) rfl rfl).1⟩

/-- C8: for every request of either direction whose algorithm for that
direction is not DEFLATE, the call returns -ENOTSUP whatever the other fields,
the capability snapshot and the initial private xform; the one diagnostic logged
is the by-pass message when the algorithm is NULL and the generic algorithm
message for any other value. -/
theorem unsupported_algorithm_rejected (B : isal_def_lvl) (cpu : cpu_caps)
    (p : isal_priv_xform) (x : rte_comp_xform) :
    (x.type = RTE_COMP_COMPRESS → x.compress.algo ≠ RTE_COMP_ALGO_DEFLATE →
      (isal_comp_set_priv_xform_parameters B cpu p (some x)).ret = -ENOTSUP ∧
      (x.compress.algo = RTE_COMP_ALGO_NULL →
        (isal_comp_set_priv_xform_parameters B cpu p (some x)).log =
          [(ERR, "By-pass not supported\n")]) ∧
      (x.compress.algo ≠ RTE_COMP_ALGO_NULL →
        (isal_comp_set_priv_xform_parameters B cpu p (some x)).log =
          [(ERR, "Algorithm not supported\n")])) ∧
    (x.type = RTE_COMP_DECOMPRESS → x.decompress.algo ≠ RTE_COMP_ALGO_DEFLATE →
      (isal_comp_set_priv_xform_parameters B cpu p (some x)).ret = -ENOTSUP ∧
      (x.decompress.algo = RTE_COMP_ALGO_NULL →
        (isal_comp_set_priv_xform_parameters B cpu p (some x)).log =
          [(ERR, "By pass not supported\n")]) ∧
      (x.decompress.algo ≠ RTE_COMP_ALGO_NULL →
        (isal_comp_set_priv_xform_parameters B cpu p (some x)).log =
          [(ERR, "Algorithm not supported\n")])) := by
  constructor
  · intro hx ha
    rw [compress_dispatch B cpu p x hx]
    unfold set_compress
    simp only [ne_eq, ha, not_false_eq_true, if_true]
    split_ifs with hn
    · exact ⟨rfl, fun _ => rfl, fun h => absurd hn h⟩
    · exact ⟨rfl, fun h => absurd h hn, fun _ => rfl⟩
  · intro hx ha
    rw [decompress_dispatch B cpu p x hx]
    unfold set_decompress
    simp only [ne_eq, ha, not_false_eq_true, if_true]
    split_ifs with hn
    · exact ⟨rfl, fun _ => rfl, fun h => absurd hn h⟩
    · exact ⟨rfl, fun h => absurd h hn, fun _ => rfl⟩

/-- C8, at a compress request asking for the NULL algorithm with every other
field valid. -/
theorem unsupported_algorithm_rejected_witness :
    (compress_request RTE_COMP_ALGO_NULL RTE_COMP_CHECKSUM_NONE 15
        RTE_COMP_HUFFMAN_DEFAULT 1).compress.algo ≠ RTE_COMP_ALGO_DEFLATE ∧
    (isal_comp_set_priv_xform_parameters sample_sizes ⟨true, true⟩ stale_priv_xform
        (some (compress_request RTE_COMP_ALGO_NULL RTE_COMP_CHECKSUM_NONE 15
          RTE_COMP_HUFFMAN_DEFAULT 1))).ret = -ENOTSUP ∧
    (isal_comp_set_priv_xform_parameters sample_sizes ⟨true, true⟩ stale_priv_xform
        (some (compress_request RTE_COMP_ALGO_NULL RTE_COMP_CHECKSUM_NONE 15
          RTE_COMP_HUFFMAN_DEFAULT 1))).log = [(ERR, "By-pass not supported\n")] :=
  have h := (unsupported_algorithm_rejected sample_sizes ⟨true, true⟩ stale_priv_xform
    (compress_request RTE_COMP_ALGO_NULL RTE_COMP_CHECKSUM_NONE 15
      RTE_COMP_HUFFMAN_DEFAULT 1)).1 rfl (by decide)
  ⟨by decide, h.1, h.2.1 rfl⟩

/-- C9, the failing input: a decompress request with DEFLATE and window 15
whose decompress-side checksum is not NONE, while the checksum of its compress
block is NONE, is accepted with return code 0: the decompress path tests
`xform->compress.chksum` and never looks at `xform->decompress.chksum`. -/
theorem decompress_checksum_not_validated :
    (decompress_request RTE_COMP_ALGO_DEFLATE (.other 1) 15
        RTE_COMP_CHECKSUM_NONE).type = RTE_COMP_DECOMPRESS ∧
    (decompress_request RTE_COMP_ALGO_DEFLATE (.other 1) 15
        RTE_COMP_CHECKSUM_NONE).decompress.chksum ≠ RTE_COMP_CHECKSUM_NONE ∧
    (isal_comp_set_priv_xform_parameters sample_sizes ⟨false, false⟩ stale_priv_xform
        (some (decompress_request RTE_COMP_ALGO_DEFLATE (.other 1) 15
          RTE_COMP_CHECKSUM_NONE))).ret = 0 ∧
    (isal_comp_set_priv_xform_parameters sample_sizes ⟨false, false⟩ stale_priv_xform
        (some (decompress_request RTE_COMP_ALGO_DEFLATE (.other 1) 15
          RTE_COMP_CHECKSUM_NONE))).ret ≠ -ENOTSUP := by
  decide

/-- The compress direction of the checksum rule: a compress request whose
checksum is not NONE returns -ENOTSUP whatever its other fields. -/
theorem compress_checksum_rejected (B : isal_def_lvl) (cpu : cpu_caps)
    (p : isal_priv_xform) (x : rte_comp_xform)
    (hx : x.type = RTE_COMP_COMPRESS)
    (hc : x.compress.chksum ≠ RTE_COMP_CHECKSUM_NONE) :
    (isal_comp_set_priv_xform_parameters B cpu p (some x)).ret = -ENOTSUP := by
  rw [compress_dispatch B cpu p x hx, set_compress_ret]
  split_ifs <;> rfl

/-- C10: for every request with window size other than 15 in its own direction
(compress.window_size for a compress request, decompress.window_size for a
decompress request), the call returns -ENOTSUP whatever the other fields, the
capability snapshot and the initial private xform. -/
theorem unsupported_window_size_rejected (B : isal_def_lvl) (cpu : cpu_caps)
    (p : isal_priv_xform) (x : rte_comp_xform) :
    (x.type = RTE_COMP_COMPRESS → x.compress.window_size ≠ 15 →
      (isal_comp_set_priv_xform_parameters B cpu p (some x)).ret = -ENOTSUP) ∧
    (x.type = RTE_COMP_DECOMPRESS → x.decompress.window_size ≠ 15 →
      (isal_comp_set_priv_xform_parameters B cpu p (some x)).ret = -ENOTSUP) := by
  constructor
  · intro hx hw
    rw [compress_dispatch B cpu p x hx, set_compress_ret]
    split_ifs <;> rfl
  · intro hx hw
    rw [decompress_dispatch B cpu p x hx, set_decompress_ret]
    split_ifs <;> rfl

/-- C10, at a decompress request with window size 14 and a compress request
with window size 16, both otherwise valid. -/
theorem unsupported_window_size_rejected_witness :
    (decompress_request RTE_COMP_ALGO_DEFLATE RTE_COMP_CHECKSUM_NONE 14
        RTE_COMP_CHECKSUM_NONE).decompress.window_size ≠ 15 ∧
    (isal_comp_set_priv_xform_parameters sample_sizes ⟨true, false⟩ stale_priv_xform
        (some (decompress_request RTE_COMP_ALGO_DEFLATE RTE_COMP_CHECKSUM_NONE 14
          RTE_COMP_CHECKSUM_NONE))).ret = -ENOTSUP ∧
    (compress_request RTE_COMP_ALGO_DEFLATE RTE_COMP_CHECKSUM_NONE 16
        RTE_COMP_HUFFMAN_DEFAULT 1).compress.window_size ≠ 15 ∧
    (isal_comp_set_priv_xform_parameters sample_sizes ⟨true, false⟩ stale_priv_xform
        (some (compress_request RTE_COMP_ALGO_DEFLATE RTE_COMP_CHECKSUM_NONE 16
          RTE_COMP_HUFFMAN_DEFAULT 1))).ret = -ENOTSUP :=
  ⟨by decide,
    (unsupported_window_size_rejected sample_sizes ⟨true, false⟩ stale_priv_xform
      (decompress_request RTE_COMP_ALGO_DEFLATE RTE_COMP_CHECKSUM_NONE 14
        RTE_COMP_CHECKSUM_NONE)).2 rfl (by decide),
    by decide,
    (unsupported_window_size_rejected sample_sizes ⟨true, false⟩ stale_priv_xform
      (compress_request RTE_COMP_ALGO_DEFLATE RTE_COMP_CHECKSUM_NONE 16
        RTE_COMP_HUFFMAN_DEFAULT 1)).1 rfl (by decide)⟩

/-- C11: for every compress request with algo = DEFLATE, chksum = NONE,
window_size = 15 and a Huffman value other than DEFAULT, FIXED and DYNAMIC, the
call returns -ENOTSUP with the Huffman diagnostic for every value of level,
valid, zero or out of range: the Huffman check comes before the level checks. -/
theorem unsupported_huffman_rejected (B : isal_def_lvl) (cpu : cpu_caps)
    (p : isal_priv_xform) (x : rte_comp_xform)
    (hx : x.type = RTE_COMP_COMPRESS)
    (ha : x.compress.algo = RTE_COMP_ALGO_DEFLATE)
    (hc : x.compress.chksum = RTE_COMP_CHECKSUM_NONE)
    (hw : x.compress.window_size = 15)
    (hh : x.compress.deflate.huffman ≠ RTE_COMP_HUFFMAN_DEFAULT ∧
      x.compress.deflate.huffman ≠ RTE_COMP_HUFFMAN_FIXED ∧
      x.compress.deflate.huffman ≠ RTE_COMP_HUFFMAN_DYNAMIC) :
    (isal_comp_set_priv_xform_parameters B cpu p (some x)).ret = -ENOTSUP ∧
    (isal_comp_set_priv_xform_parameters B cpu p (some x)).log =
      [(ERR, "Huffman code not supported\n")] := by
  rw [compress_dispatch B cpu p x hx]
  unfold set_compress
  simp only [RTE_COMP_ISAL_WINDOW_SIZE, ha, hc, hw, ne_eq, not_true_eq_false, if_false, if_true]
  cases hv : x.compress.deflate.huffman <;> simp [hv] at hh ⊢

/-- C11, at an unknown Huffman value with the out-of-range level 10: the
answer is -ENOTSUP, not -EINVAL. -/
theorem unsupported_huffman_rejected_witness :
    (compress_request RTE_COMP_ALGO_DEFLATE RTE_COMP_CHECKSUM_NONE 15
        (.other 3) 10).compress.level > RTE_COMP_LEVEL_MAX ∧
    (isal_comp_set_priv_xform_parameters sample_sizes ⟨true, true⟩ stale_priv_xform
        (some (compress_request RTE_COMP_ALGO_DEFLATE RTE_COMP_CHECKSUM_NONE 15
          (.other 3) 10))).ret = -ENOTSUP :=
  ⟨by decide,
    (unsupported_huffman_rejected sample_sizes ⟨true, true⟩ stale_priv_xform
      (compress_request RTE_COMP_ALGO_DEFLATE RTE_COMP_CHECKSUM_NONE 15 (.other 3) 10)
      rfl rfl rfl rfl (by decide)).1⟩

/-! ## Resolution of decompress requests -/

/-- C12, the failing input: a decompress request with DEFLATE, decompress-side
checksum NONE and window 15 is rejected with -ENOTSUP and the checksum
diagnostic when the checksum field of its compress block holds another value:
the decompress path tests `xform->compress.chksum`. -/
theorem decompress_rejected_on_compress_checksum :
    (decompress_request RTE_COMP_ALGO_DEFLATE RTE_COMP_CHECKSUM_NONE 15
        (.other 1)).type = RTE_COMP_DECOMPRESS ∧
    (decompress_request RTE_COMP_ALGO_DEFLATE RTE_COMP_CHECKSUM_NONE 15
        (.other 1)).decompress.algo = RTE_COMP_ALGO_DEFLATE ∧
    (decompress_request RTE_COMP_ALGO_DEFLATE RTE_COMP_CHECKSUM_NONE 15
        (.other 1)).decompress.chksum = RTE_COMP_CHECKSUM_NONE ∧
    (decompress_request RTE_COMP_ALGO_DEFLATE RTE_COMP_CHECKSUM_NONE 15
        (.other 1)).decompress.window_size = 15 ∧
    (isal_comp_set_priv_xform_parameters sample_sizes ⟨false, false⟩ stale_priv_xform
        (some (decompress_request RTE_COMP_ALGO_DEFLATE RTE_COMP_CHECKSUM_NONE 15
          (.other 1)))).ret = -ENOTSUP ∧
    (isal_comp_set_priv_xform_parameters sample_sizes ⟨false, false⟩ stale_priv_xform
        (some (decompress_request RTE_COMP_ALGO_DEFLATE RTE_COMP_CHECKSUM_NONE 15
          (.other 1)))).ret ≠ 0 ∧
    (isal_comp_set_priv_xform_parameters sample_sizes ⟨false, false⟩ stale_priv_xform
        (some (decompress_request RTE_COMP_ALGO_DEFLATE RTE_COMP_CHECKSUM_NONE 15
          (.other 1)))).log = [(ERR, "Checksum not supported\n")] := by
  decide

/-- What the decompress path resolves once the checksum it reads, the one of
the compress block, is NONE: a decompress request with DEFLATE and window 15
returns 0 without diagnostics, and the private xform carries type = DECOMPRESS,
decompress.algo = DEFLATE and decompress.window_size = 15, with
decompress.chksum and `level_buffer_size` as before the call.  The compress
block shares the storage just written and is left out of the statement. -/
theorem decompress_resolution (B : isal_def_lvl) (cpu : cpu_caps)
    (p : isal_priv_xform) (x : rte_comp_xform)
    (hx : x.type = RTE_COMP_DECOMPRESS)
    (ha : x.decompress.algo = RTE_COMP_ALGO_DEFLATE)
    (hc : x.compress.chksum = RTE_COMP_CHECKSUM_NONE)
    (hw : x.decompress.window_size = 15) :
    (isal_comp_set_priv_xform_parameters B cpu p (some x)).ret = 0 ∧
    (isal_comp_set_priv_xform_parameters B cpu p (some x)).log = [] ∧
    (isal_comp_set_priv_xform_parameters B cpu p (some x)).priv_xform.type =
      RTE_COMP_DECOMPRESS ∧
    (isal_comp_set_priv_xform_parameters B cpu p (some x)).priv_xform.decompress =
      { algo := RTE_COMP_ALGO_DEFLATE, chksum := p.decompress.chksum, window_size := 15 } ∧
    (isal_comp_set_priv_xform_parameters B cpu p (some x)).priv_xform.level_buffer_size =
      p.level_buffer_size := by
  rw [decompress_dispatch B cpu p x hx]
  unfold set_decompress
  simp [RTE_COMP_ISAL_WINDOW_SIZE, ha, hc, hw]

/-! ## Invariants of successful compress resolutions -/

/-- C13: whenever the call returns 0 for a compress request, the pair
(priv_xform.compress.level, priv_xform.level_buffer_size) after the call is one
of (0, ISAL_DEF_LVL0_DEFAULT), (1, ISAL_DEF_LVL1_DEFAULT),
(2, ISAL_DEF_LVL2_DEFAULT), (3, ISAL_DEF_LVL3_DEFAULT), for every request,
capability snapshot and initial private xform. -/
theorem resolved_level_matches_buffer_size (B : isal_def_lvl) (cpu : cpu_caps)
    (p : isal_priv_xform) (x : rte_comp_xform)
    (hx : x.type = RTE_COMP_COMPRESS)
    (hok : (isal_comp_set_priv_xform_parameters B cpu p (some x)).ret = 0) :
    ((isal_comp_set_priv_xform_parameters B cpu p (some x)).priv_xform.compress.level = 0 ∧
      (isal_comp_set_priv_xform_parameters B cpu p (some x)).priv_xform.level_buffer_size =
        B.ISAL_DEF_LVL0_DEFAULT) ∨
    ((isal_comp_set_priv_xform_parameters B cpu p (some x)).priv_xform.compress.level = 1 ∧
      (isal_comp_set_priv_xform_parameters B cpu p (some x)).priv_xform.level_buffer_size =
        B.ISAL_DEF_LVL1_DEFAULT) ∨
    ((isal_comp_set_priv_xform_parameters B cpu p (some x)).priv_xform.compress.level = 2 ∧
      (isal_comp_set_priv_xform_parameters B cpu p (some x)).priv_xform.level_buffer_size =
        B.ISAL_DEF_LVL2_DEFAULT) ∨
    ((isal_comp_set_priv_xform_parameters B cpu p (some x)).priv_xform.compress.level = 3 ∧
      (isal_comp_set_priv_xform_parameters B cpu p (some x)).priv_xform.level_buffer_size =
        B.ISAL_DEF_LVL3_DEFAULT) := by
  rw [compress_dispatch B cpu p x hx] at hok ⊢
  obtain ⟨ha, hc, hw, hh, h5, h6⟩ := set_compress_ok_fields B cpu p x hok
  rw [set_compress_valid_fields B cpu p x ha hc hw hh, set_level_ok_state B cpu _ x h5 h6]
  split_ifs
  · exact Or.inl ⟨rfl, rfl⟩
  · exact Or.inr (map_api_level_state B cpu _ x.compress.level).2

/-- C13, at level 9 with dynamic Huffman on a CPU without the vector
extensions: the pair is (2, ISAL_DEF_LVL2_DEFAULT). -/
theorem resolved_level_matches_buffer_size_witness :
    (isal_comp_set_priv_xform_parameters sample_sizes ⟨false, false⟩ stale_priv_xform
        (some (compress_request RTE_COMP_ALGO_DEFLATE RTE_COMP_CHECKSUM_NONE 15
          RTE_COMP_HUFFMAN_DYNAMIC 9))).ret = 0 ∧
    (isal_comp_set_priv_xform_parameters sample_sizes ⟨false, false⟩ stale_priv_xform
        (some (compress_request RTE_COMP_ALGO_DEFLATE RTE_COMP_CHECKSUM_NONE 15
          RTE_COMP_HUFFMAN_DYNAMIC 9))).priv_xform.compress.level = 2 ∧
    (isal_comp_set_priv_xform_parameters sample_sizes ⟨false, false⟩ stale_priv_xform
        (some (compress_request RTE_COMP_ALGO_DEFLATE RTE_COMP_CHECKSUM_NONE 15
          RTE_COMP_HUFFMAN_DYNAMIC 9))).priv_xform.level_buffer_size =
      sample_sizes.ISAL_DEF_LVL2_DEFAULT := by
  have h := resolved_level_matches_buffer_size sample_sizes ⟨false, false⟩ stale_priv_xform
    (compress_request RTE_COMP_ALGO_DEFLATE RTE_COMP_CHECKSUM_NONE 15
      RTE_COMP_HUFFMAN_DYNAMIC 9) rfl (by decide)
  rcases h with h | h | h | h
  · exact absurd h.1 (by decide)
  · exact absurd h.1 (by decide)
  · exact ⟨by decide, h⟩
  · exact absurd h.1 (by decide)

/-- C14: for every request (NULL included), every initial private xform and any
two capability snapshots the call returns the same code; the two resulting
private xforms have the same type and the same compress block apart from
`compress.level`: the snapshot can change only the resolved level (and the
storage it occupies) and `level_buffer_size`. -/
theorem return_code_independent_of_cpu (B : isal_def_lvl) (cpu1 cpu2 : cpu_caps)
    (p : isal_priv_xform) (xform : Option rte_comp_xform) :
    (isal_comp_set_priv_xform_parameters B cpu1 p xform).ret =
      (isal_comp_set_priv_xform_parameters B cpu2 p xform).ret ∧
    (isal_comp_set_priv_xform_parameters B cpu1 p xform).priv_xform.type =
      (isal_comp_set_priv_xform_parameters B cpu2 p xform).priv_xform.type ∧
    (isal_comp_set_priv_xform_parameters B cpu1 p xform).priv_xform.compress.algo =
      (isal_comp_set_priv_xform_parameters B cpu2 p xform).priv_xform.compress.algo ∧
    (isal_comp_set_priv_xform_parameters B cpu1 p xform).priv_xform.compress.deflate =
      (isal_comp_set_priv_xform_parameters B cpu2 p xform).priv_xform.compress.deflate ∧
    (isal_comp_set_priv_xform_parameters B cpu1 p xform).priv_xform.compress.window_size =
      (isal_comp_set_priv_xform_parameters B cpu2 p xform).priv_xform.compress.window_size ∧
    (isal_comp_set_priv_xform_parameters B cpu1 p xform).priv_xform.compress.chksum =
      (isal_comp_set_priv_xform_parameters B cpu2 p xform).priv_xform.compress.chksum := by
  cases xform with
  | none => simp [isal_comp_set_priv_xform_parameters]
  | some x =>
    by_cases hx : x.type = RTE_COMP_COMPRESS
    · rw [compress_dispatch B cpu1 p x hx, compress_dispatch B cpu2 p x hx]
      exact set_compress_cpu_agree B cpu1 cpu2 p x
    · by_cases hd : x.type = RTE_COMP_DECOMPRESS
      · rw [decompress_dispatch B cpu1 p x hd, decompress_dispatch B cpu2 p x hd]
        simp
      · simp [isal_comp_set_priv_xform_parameters, hx, hd]

/-- C15: whenever the call returns 0 for a compress request, the private xform
after the call has type = COMPRESS, compress.algo = DEFLATE,
compress.window_size = 15 and compress.deflate.huffman equal to the Huffman
value of the request. -/
theorem successful_compress_copies_request (B : isal_def_lvl) (cpu : cpu_caps)
    (p : isal_priv_xform) (x : rte_comp_xform)
    (hx : x.type = RTE_COMP_COMPRESS)
    (hok : (isal_comp_set_priv_xform_parameters B cpu p (some x)).ret = 0) :
    (isal_comp_set_priv_xform_parameters B cpu p (some x)).priv_xform.type =
      RTE_COMP_COMPRESS ∧
    (isal_comp_set_priv_xform_parameters B cpu p (some x)).priv_xform.compress.algo =
      RTE_COMP_ALGO_DEFLATE ∧
    (isal_comp_set_priv_xform_parameters B cpu p (some x)).priv_xform.compress.window_size =
      15 ∧
    (isal_comp_set_priv_xform_parameters B cpu p (some x)).priv_xform.compress.deflate.huffman =
      x.compress.deflate.huffman := by
  rw [compress_dispatch B cpu p x hx] at hok ⊢
  obtain ⟨ha, hc, hw, hh, h5, h6⟩ := set_compress_ok_fields B cpu p x hok
  rw [set_compress_valid_fields B cpu p x ha hc hw hh, set_level_ok_state B cpu _ x h5 h6]
  split_ifs
  · exact ⟨rfl, rfl, rfl, rfl⟩
  · rw [(map_api_level_state B cpu _ x.compress.level).1]
    exact ⟨rfl, rfl, rfl, rfl⟩

/-- C15, at a dynamic-Huffman request with level 2 resolved into the stale
private xform. -/
theorem successful_compress_copies_request_witness :
    (isal_comp_set_priv_xform_parameters sample_sizes ⟨false, true⟩ stale_priv_xform
        (some (compress_request RTE_COMP_ALGO_DEFLATE RTE_COMP_CHECKSUM_NONE 15
          RTE_COMP_HUFFMAN_DYNAMIC 2))).ret = 0 ∧
    (isal_comp_set_priv_xform_parameters sample_sizes ⟨false, true⟩ stale_priv_xform
        (some (compress_request RTE_COMP_ALGO_DEFLATE RTE_COMP_CHECKSUM_NONE 15
          RTE_COMP_HUFFMAN_DYNAMIC 2))).priv_xform.compress.deflate.huffman =
      RTE_COMP_HUFFMAN_DYNAMIC :=
  ⟨by decide,
    (successful_compress_copies_request sample_sizes ⟨false, true⟩ stale_priv_xform
      (compress_request RTE_COMP_ALGO_DEFLATE RTE_COMP_CHECKSUM_NONE 15
        RTE_COMP_HUFFMAN_DYNAMIC 2) rfl (by decide)).2.2.2⟩

/-! ## Order of the checks and remaining paths -/

/-- C16: for every non-null compress request the call returns -EINVAL if and
only if the four earlier checks pass (algo = DEFLATE, chksum = NONE,
window_size = 15, huffman DEFAULT, FIXED or DYNAMIC) and level < -1 or
level > 9; a request that fails one of the four earlier checks returns -ENOTSUP
whatever its level, out-of-range levels included. -/
theorem einval_iff_level_first_failure (B : isal_def_lvl) (cpu : cpu_caps)
    (p : isal_priv_xform) (x : rte_comp_xform) (hx : x.type = RTE_COMP_COMPRESS) :
    ((isal_comp_set_priv_xform_parameters B cpu p (some x)).ret = -EINVAL ↔
      (x.compress.algo = RTE_COMP_ALGO_DEFLATE ∧
        x.compress.chksum = RTE_COMP_CHECKSUM_NONE ∧
        x.compress.window_size = 15 ∧
        (x.compress.deflate.huffman = RTE_COMP_HUFFMAN_DEFAULT ∨
          x.compress.deflate.huffman = RTE_COMP_HUFFMAN_FIXED ∨
          x.compress.deflate.huffman = RTE_COMP_HUFFMAN_DYNAMIC) ∧
        (x.compress.level < -1 ∨ x.compress.level > 9))) ∧
    (¬ (x.compress.algo = RTE_COMP_ALGO_DEFLATE ∧
        x.compress.chksum = RTE_COMP_CHECKSUM_NONE ∧
        x.compress.window_size = 15 ∧
        (x.compress.deflate.huffman = RTE_COMP_HUFFMAN_DEFAULT ∨
          x.compress.deflate.huffman = RTE_COMP_HUFFMAN_FIXED ∨
          x.compress.deflate.huffman = RTE_COMP_HUFFMAN_DYNAMIC)) →
      (isal_comp_set_priv_xform_parameters B cpu p (some x)).ret = -ENOTSUP) := by
  rw [compress_dispatch B cpu p x hx, set_compress_ret]
  have hhuff : ∀ h4 : ¬ (x.compress.deflate.huffman ≠ RTE_COMP_HUFFMAN_DEFAULT ∧
      x.compress.deflate.huffman ≠ RTE_COMP_HUFFMAN_FIXED ∧
      x.compress.deflate.huffman ≠ RTE_COMP_HUFFMAN_DYNAMIC),
      x.compress.deflate.huffman = RTE_COMP_HUFFMAN_DEFAULT ∨
      x.compress.deflate.huffman = RTE_COMP_HUFFMAN_FIXED ∨
      x.compress.deflate.huffman = RTE_COMP_HUFFMAN_DYNAMIC := by
    intro h4
    by_contra hn
    push_neg at hn
    exact h4 hn
  refine ⟨⟨?_, ?_⟩, ?_⟩
  · intro h
    split_ifs at h with h1 h2 h3 h4 h5 h6 <;> simp [EINVAL, ENOTSUP] at h
    exact ⟨not_not.mp h1, not_not.mp h2, not_not.mp h3, hhuff h4, h5⟩
  · rintro ⟨h1, h2, h3, h4, h5⟩
    have h4n : ¬ (x.compress.deflate.huffman ≠ RTE_COMP_HUFFMAN_DEFAULT ∧
        x.compress.deflate.huffman ≠ RTE_COMP_HUFFMAN_FIXED ∧
        x.compress.deflate.huffman ≠ RTE_COMP_HUFFMAN_DYNAMIC) := by
      rintro ⟨a, b, c⟩
      rcases h4 with h | h | h
      · exact a h
      · exact b h
      · exact c h
    simp [h1, h2, h3, h4n, h5]
  · intro hn
    split_ifs with h1 h2 h3 h4 <;> first | rfl | skip
    all_goals exact absurd ⟨not_not.mp h1, not_not.mp h2, not_not.mp h3, hhuff h4⟩ hn

/-- C16, at a request whose checksum is unsupported and whose level is 12: the
earlier check decides, the answer is -ENOTSUP and not -EINVAL. -/
theorem einval_iff_level_first_failure_witness :
    (compress_request RTE_COMP_ALGO_DEFLATE (.other 2) 15
        RTE_COMP_HUFFMAN_DEFAULT 12).compress.level > RTE_COMP_LEVEL_MAX ∧
    (isal_comp_set_priv_xform_parameters sample_sizes ⟨true, true⟩ stale_priv_xform
        (some (compress_request RTE_COMP_ALGO_DEFLATE (.other 2) 15
          RTE_COMP_HUFFMAN_DEFAULT 12))).ret = -ENOTSUP :=
  ⟨by decide,
    (einval_iff_level_first_failure sample_sizes ⟨true, true⟩ stale_priv_xform
      (compress_request RTE_COMP_ALGO_DEFLATE (.other 2) 15 RTE_COMP_HUFFMAN_DEFAULT 12)
      rfl).2 (by decide)⟩

/-- C17: in the decompress path the checksum validated is the one of the
request's compress block.  For every decompress request `x` with
decompress.algo = DEFLATE, the call returns -ENOTSUP with the checksum
diagnostic if and only if x.compress.chksum is not NONE; and a decompress
request `y` that agrees with `x` on decompress.algo, decompress.window_size and
compress.chksum, whatever its decompress.chksum, has the same outcome (return
code, private xform and diagnostics). -/
theorem decompress_validates_compress_checksum (B : isal_def_lvl) (cpu : cpu_caps)
    (p : isal_priv_xform) (x y : rte_comp_xform)
    (hx : x.type = RTE_COMP_DECOMPRESS)
    (ha : x.decompress.algo = RTE_COMP_ALGO_DEFLATE)
    (hy : y.type = RTE_COMP_DECOMPRESS)
    (hya : y.decompress.algo = x.decompress.algo)
    (hyw : y.decompress.window_size = x.decompress.window_size)
    (hyc : y.compress.chksum = x.compress.chksum) :
    (((isal_comp_set_priv_xform_parameters B cpu p (some x)).ret = -ENOTSUP ∧
        (isal_comp_set_priv_xform_parameters B cpu p (some x)).log =
          [(ERR, "Checksum not supported\n")]) ↔
      x.compress.chksum ≠ RTE_COMP_CHECKSUM_NONE) ∧
    isal_comp_set_priv_xform_parameters B cpu p (some y) =
      isal_comp_set_priv_xform_parameters B cpu p (some x) := by
  rw [decompress_dispatch B cpu p x hx, decompress_dispatch B cpu p y hy]
  constructor
  · unfold set_decompress
    by_cases h1 : x.compress.chksum = RTE_COMP_CHECKSUM_NONE
    · by_cases h2 : x.decompress.window_size = RTE_COMP_ISAL_WINDOW_SIZE
      · simp [ha, h1, h2, ENOTSUP]
      · simp [ha, h1, h2]
    · simp [ha, h1]
  · unfold set_decompress
    rw [hya, hyw, hyc]

/-- C17, at two decompress requests that differ only in the decompress-side
checksum, both with an unsupported checksum in the compress block. -/
theorem decompress_validates_compress_checksum_witness :
    (isal_comp_set_priv_xform_parameters sample_sizes ⟨false, false⟩ stale_priv_xform
        (some (decompress_request RTE_COMP_ALGO_DEFLATE RTE_COMP_CHECKSUM_NONE 15
          (.other 1)))).ret = -ENOTSUP ∧
    isal_comp_set_priv_xform_parameters sample_sizes ⟨false, false⟩ stale_priv_xform
        (some (decompress_request RTE_COMP_ALGO_DEFLATE (.other 3) 15 (.other 1))) =
      isal_comp_set_priv_xform_parameters sample_sizes ⟨false, false⟩ stale_priv_xform
        (some (decompress_request RTE_COMP_ALGO_DEFLATE RTE_COMP_CHECKSUM_NONE 15
          (.other 1))) :=
  have h := decompress_validates_compress_checksum sample_sizes ⟨false, false⟩
    stale_priv_xform
    (decompress_request RTE_COMP_ALGO_DEFLATE RTE_COMP_CHECKSUM_NONE 15 (.other 1))
    (decompress_request RTE_COMP_ALGO_DEFLATE (.other 3) 15 (.other 1))
    rfl rfl rfl rfl rfl rfl
  ⟨(h.1.2 (by decide)).1, h.2⟩

/-- C18: a non-null request whose type is neither COMPRESS nor DECOMPRESS is
accepted silently: the call returns 0, logs nothing and leaves the private
xform exactly as it was before the call. -/
theorem unknown_direction_accepted (B : isal_def_lvl) (cpu : cpu_caps)
    (p : isal_priv_xform) (x : rte_comp_xform)
    (hc : x.type ≠ RTE_COMP_COMPRESS) (hd : x.type ≠ RTE_COMP_DECOMPRESS) :
    (isal_comp_set_priv_xform_parameters B cpu p (some x)).ret = 0 ∧
    (isal_comp_set_priv_xform_parameters B cpu p (some x)).priv_xform = p ∧
    (isal_comp_set_priv_xform_parameters B cpu p (some x)).log = [] := by
  simp [isal_comp_set_priv_xform_parameters, hc, hd]

/-- C18, at a request of an unlisted type whose parameter blocks are all
invalid. -/
theorem unknown_direction_accepted_witness :
    (isal_comp_set_priv_xform_parameters sample_sizes ⟨false, false⟩ stale_priv_xform
        (some ⟨.other 2, ⟨.other 0, ⟨.other 0⟩, 100, 0, .other 1⟩,
          ⟨.other 0, .other 1, 0⟩⟩)).ret = 0 ∧
    (isal_comp_set_priv_xform_parameters sample_sizes ⟨false, false⟩ stale_priv_xform
        (some ⟨.other 2, ⟨.other 0, ⟨.other 0⟩, 100, 0, .other 1⟩,
          ⟨.other 0, .other 1, 0⟩⟩)).priv_xform = stale_priv_xform :=
  have h := unknown_direction_accepted sample_sizes ⟨false, false⟩ stale_priv_xform
    ⟨.other 2, ⟨.other 0, ⟨.other 0⟩, 100, 0, .other 1⟩, ⟨.other 0, .other 1, 0⟩⟩
    (by decide) (by decide)
  ⟨h.1, h.2.1⟩

/-- C19: the level mapping is monotone.  For a fixed capability snapshot and two
compress requests with algo = DEFLATE, chksum = NONE, window_size = 15 and
Huffman DEFAULT or DYNAMIC whose levels satisfy 1 <= l1 <= l2 <= 9, the internal
level resolved for l1 is at most the one resolved for l2; and for a fixed
request and initial private xform, a capability snapshot with more flags present
never gives a lower resolved internal level. -/
theorem level_mapping_monotone (B : isal_def_lvl) (cpu cpuA cpuB : cpu_caps)
    (p q : isal_priv_xform) (x1 x2 : rte_comp_xform) (xform : Option rte_comp_xform)
    (hx1 : x1.type = RTE_COMP_COMPRESS)
    (ha1 : x1.compress.algo = RTE_COMP_ALGO_DEFLATE)
    (hc1 : x1.compress.chksum = RTE_COMP_CHECKSUM_NONE)
    (hw1 : x1.compress.window_size = 15)
    (hh1 : x1.compress.deflate.huffman = RTE_COMP_HUFFMAN_DEFAULT ∨
      x1.compress.deflate.huffman = RTE_COMP_HUFFMAN_DYNAMIC)
    (hx2 : x2.type = RTE_COMP_COMPRESS)
    (ha2 : x2.compress.algo = RTE_COMP_ALGO_DEFLATE)
    (hc2 : x2.compress.chksum = RTE_COMP_CHECKSUM_NONE)
    (hw2 : x2.compress.window_size = 15)
    (hh2 : x2.compress.deflate.huffman = x1.compress.deflate.huffman)
    (hl1 : 1 ≤ x1.compress.level)
    (hl12 : x1.compress.level ≤ x2.compress.level)
    (hl2 : x2.compress.level ≤ 9)
    (h512 : cpuA.avx512f = true → cpuB.avx512f = true)
    (havx2 : cpuA.avx2 = true → cpuB.avx2 = true) :
    (isal_comp_set_priv_xform_parameters B cpu p (some x1)).priv_xform.compress.level ≤
      (isal_comp_set_priv_xform_parameters B cpu p (some x2)).priv_xform.compress.level ∧
    (isal_comp_set_priv_xform_parameters B cpuA q xform).priv_xform.compress.level ≤
      (isal_comp_set_priv_xform_parameters B cpuB q xform).priv_xform.compress.level := by
  constructor
  · have hh3 : x1.compress.deflate.huffman = RTE_COMP_HUFFMAN_DEFAULT ∨
        x1.compress.deflate.huffman = RTE_COMP_HUFFMAN_FIXED ∨
        x1.compress.deflate.huffman = RTE_COMP_HUFFMAN_DYNAMIC := by
      rcases hh1 with h | h
      · exact Or.inl h
      · exact Or.inr (Or.inr h)
    have hnf : x1.compress.deflate.huffman ≠ RTE_COMP_HUFFMAN_FIXED := by
      rcases hh1 with h | h <;> simp [h]
    have r1 : ¬ (x1.compress.level < -1 ∨ x1.compress.level > 9) := by omega
    have r2 : ¬ (x2.compress.level < -1 ∨ x2.compress.level > 9) := by omega
    have z1 : x1.compress.level ≠ 0 := by omega
    have z2 : x2.compress.level ≠ 0 := by omega
    rw [compress_dispatch B cpu p x1 hx1, compress_dispatch B cpu p x2 hx2,
      set_compress_valid_fields B cpu p x1 ha1 hc1 hw1 hh3,
      set_compress_valid_fields B cpu p x2 ha2 hc2 hw2 (hh2 ▸ hh3),
      set_level_ok_state B cpu _ x1 r1 z1, set_level_ok_state B cpu _ x2 r2 z2]
    simp only [hh2, hnf, if_false]
    rw [map_api_level_level, map_api_level_level]
    split_ifs <;> first | decide | omega
  · cases xform with
    | none => simp [isal_comp_set_priv_xform_parameters]
    | some x =>
      by_cases hx : x.type = RTE_COMP_COMPRESS
      · rw [compress_dispatch B cpuA q x hx, compress_dispatch B cpuB q x hx]
        exact set_compress_level_mono_cpu B cpuA cpuB q x h512 havx2
      · by_cases hd : x.type = RTE_COMP_DECOMPRESS
        · rw [decompress_dispatch B cpuA q x hd, decompress_dispatch B cpuB q x hd]
        · simp [isal_comp_set_priv_xform_parameters, hx, hd]

/-- C19, at levels 2 and 9 with default Huffman on a CPU with AVX2 only, and at
scenario C against scenario B of the spec for the capability part. -/
theorem level_mapping_monotone_witness :
    (isal_comp_set_priv_xform_parameters sample_sizes ⟨false, true⟩ stale_priv_xform
        (some (compress_request RTE_COMP_ALGO_DEFLATE RTE_COMP_CHECKSUM_NONE 15
          RTE_COMP_HUFFMAN_DEFAULT 2))).priv_xform.compress.level ≤
      (isal_comp_set_priv_xform_parameters sample_sizes ⟨false, true⟩ stale_priv_xform
        (some (compress_request RTE_COMP_ALGO_DEFLATE RTE_COMP_CHECKSUM_NONE 15
          RTE_COMP_HUFFMAN_DEFAULT 9))).priv_xform.compress.level ∧
    (isal_comp_set_priv_xform_parameters sample_sizes ⟨false, false⟩ stale_priv_xform
        (some (compress_request RTE_COMP_ALGO_DEFLATE RTE_COMP_CHECKSUM_NONE 15
          RTE_COMP_HUFFMAN_DEFAULT 9))).priv_xform.compress.level ≤
      (isal_comp_set_priv_xform_parameters sample_sizes ⟨true, false⟩ stale_priv_xform
        (some (compress_request RTE_COMP_ALGO_DEFLATE RTE_COMP_CHECKSUM_NONE 15
          RTE_COMP_HUFFMAN_DEFAULT 9))).priv_xform.compress.level :=
  level_mapping_monotone sample_sizes ⟨false, true⟩ ⟨false, false⟩ ⟨true, false⟩
    stale_priv_xform stale_priv_xform
    (compress_request RTE_COMP_ALGO_DEFLATE RTE_COMP_CHECKSUM_NONE 15
      RTE_COMP_HUFFMAN_DEFAULT 2)
    (compress_request RTE_COMP_ALGO_DEFLATE RTE_COMP_CHECKSUM_NONE 15
      RTE_COMP_HUFFMAN_DEFAULT 9)
    (some (compress_request RTE_COMP_ALGO_DEFLATE RTE_COMP_CHECKSUM_NONE 15
      RTE_COMP_HUFFMAN_DEFAULT 9))
    rfl rfl rfl rfl (Or.inl rfl) rfl rfl rfl rfl rfl (by decide) (by decide) (by decide)
    (by decide) (by decide)

/-- C20: when `xform` is NULL the call returns -EINVAL, logs nothing and leaves
the private xform exactly as it was, for every initial private xform, every
capability snapshot and every choice of the buffer-size constants. -/
theorem null_request_rejected (B : isal_def_lvl) (cpu : cpu_caps) (p : isal_priv_xform) :
    (isal_comp_set_priv_xform_parameters B cpu p none).ret = -EINVAL ∧
    (isal_comp_set_priv_xform_parameters B cpu p none).priv_xform = p ∧
    (isal_comp_set_priv_xform_parameters B cpu p none).log = [] :=
  ⟨rfl, rfl, rfl⟩

end IsalPmd
